import Mathlib

/-!
Verification of the spider_manager crawl engine, state-store client and
process supervisor against their natural-language specification.

The development shallowly embeds the Python sources:
* `backend/spiders/redis_manager.py` (`SpiderRedisManager`) — the State Store
  client.  Each public method is translated twice: an `…Ok` function giving the
  pure semantics of the method body when the backing store is reachable and no
  command raises, and a `Conn`-level function of the same name as the Python
  method mirroring the `if not self.client` guard and the `try/except` fallback.
* `backend/spiders/crawlers/base_crawler.py` (`BaseCrawler`) — the two-phase
  crawl engine.  Phase 1 (`_collect_links_phase` / `_collect_column_links`) and
  Phase 2 (`_crawl_details_phase`) are modelled as fuel-bounded loops over the
  durable store state, with the site adapter's network behaviour supplied by
  oracles and an event trace recording pops, fetches, page requests and status
  writes.
* `backend/spiders/adapters.py` (`NHSASpiderAdapter`) — the supervisor's
  `start` and `get_status` for one identity.

Wall-clock timestamps, logging text, signal handlers and the cooperative
pause/stop flags are not exercised by the verified properties and are omitted;
JSON serialisation of queue records is assumed to round-trip.
-/

namespace SpiderManager

/-- A detail-page link record, mirroring the dict built by the adapters'
`create_link_data` (nhsa/wjw both copy the list item's `URL` field into the
`url` key).  Only the fields the engine reads are kept. -/
structure LinkRec where
  url : String
  title : String
  category : String
deriving DecidableEq, Repr

/-- An entry of the bounded error ring pushed by `log_error`
(timestamp omitted). -/
structure ErrorEntry where
  etype : String
  url : String
  message : String
deriving DecidableEq, Repr

/-- The progress hash written by `update_progress`. -/
structure ProgressRec where
  crawled : Nat
  total : Nat
  current_category : String
  errCount : Nat
deriving DecidableEq, Repr

/-- The cached stats snapshot hash (`spider:<type>:stats`). -/
structure StatsRec where
  total_items : Nat
  file_count : Nat
  html_count : Nat
  crawled_count : Nat
  visited_urls : Nat
  categories : List (String × Nat)
  date_earliest : Option String
  date_latest : Option String
  file_types : List (String × Nat)
deriving DecidableEq, Repr

/-- The durable per-identity store state: one field per Redis key (or hash
field) used by `SpiderRedisManager`.  `linksQueue` is kept in pop order:
`push_to_links_queue` LPUSHes and `pop_from_links_queue` RPOPs the Redis list,
which together realise append-at-tail / remove-at-head on this list. -/
structure RedisState where
  /-- `state` hash, field `status`; `hgetall` of a missing hash yields the
  default `idle` in `get_status`. -/
  statusField : String
  /-- `state` hash, field `reason` (absent ↦ `none`). -/
  reasonField : Option String
  /-- `state` hash, field `paused` (stored as the string `1`). -/
  pausedField : Bool
  /-- `state` hash, field `details_crawled`. -/
  detailsCrawled : Nat
  /-- `state` hash, field `error_count`. -/
  errorCount : Nat
  /-- key `status_version` (a plain INCR counter). -/
  statusVersion : Nat
  /-- `progress` hash (absent ↦ `none`). -/
  progress : Option ProgressRec
  /-- set `visited_urls`. -/
  visitedUrls : List String
  /-- set `crawled_urls`. -/
  crawledUrls : List String
  /-- set `empty_content_urls`. -/
  emptyContentUrls : List String
  /-- list `links_queue`, in pop order (head = next RPOP). -/
  linksQueue : List LinkRec
  /-- sorted set `url_queue` as (member, score) pairs. -/
  urlQueue : List (String × Int)
  /-- list `errors` (LPUSH + LTRIM 0 99 bounded ring, newest first). -/
  errors : List ErrorEntry
  /-- `pagination` hash, numeric fields `<column_id>` (last offset). -/
  paginationPages : List (Nat × Nat)
  /-- `pagination` hash, fields `<column_id>_complete` set to `1`. -/
  paginationDone : List Nat
  /-- `stats` hash (absent ↦ `none`). -/
  stats : Option StatsRec
  /-- key `checkpoint` (the serialised payload). -/
  checkpoint : Option String
deriving DecidableEq, Repr

/-- The empty store (no keys yet). -/
def RedisState.init : RedisState :=
  ⟨"idle", none, false, 0, 0, 0, none, [], [], [], [], [], [], [], [], none, none⟩

/-- SADD: insert into a set represented as a duplicate-free list. -/
def sadd (l : List String) (x : String) : List String :=
  if x ∈ l then l else x :: l

/-- Assoc-list update used for hash fields keyed by column id. -/
def setAssoc (l : List (Nat × Nat)) (k v : Nat) : List (Nat × Nat) :=
  match l with
  | [] => [(k, v)]
  | (k0, v0) :: rest => if k0 = k then (k, v) :: rest else (k0, v0) :: setAssoc rest k v

/-- Assoc-list lookup with default 0 (`int(page) if page else 0`). -/
def getAssoc (l : List (Nat × Nat)) (k : Nat) : Nat :=
  match l with
  | [] => 0
  | (k0, v0) :: rest => if k0 = k then v0 else getAssoc rest k

/-- Details dict passed to `set_status`; only the `reason` key is observable in
the model (timestamps and counters carried in the other keys are dropped). -/
structure StatusDetails where
  reason : Option String
deriving DecidableEq, Repr

def noDetails : StatusDetails := ⟨none⟩

/-- `set_status` body on a reachable store: HSET merges `status` (and `reason`
when the details dict carries one) into the state hash, then the version
counter is INCRed by `_increment_status_version`. -/
def set_statusOk (st : RedisState) (status : String) (d : StatusDetails) : RedisState :=
  { st with statusField := status,
            reasonField := match d.reason with
              | some r => some r
              | none => st.reasonField,
            statusVersion := st.statusVersion + 1 }

/-- The dict returned by `get_status` (the free-form `error` message key is
dropped; `source` is the constant `redis`). -/
structure StatusView where
  status : String
  links_collected : Nat
  pending_links : Nat
  details_crawled : Nat
  reason : Option String
  version : Nat
deriving DecidableEq, Repr

/-- `get_visited_count` body: SCARD of `visited_urls`. -/
def get_visited_countOk (st : RedisState) : Nat := st.visitedUrls.length

/-- `get_crawled_count` body: SCARD of `crawled_urls`. -/
def get_crawled_countOk (st : RedisState) : Nat := st.crawledUrls.length

/-- `get_links_queue_size` body: LLEN of `links_queue`. -/
def get_links_queue_sizeOk (st : RedisState) : Nat := st.linksQueue.length

/-- `has_pending_links` body: queue size > 0. -/
def has_pending_linksOk (st : RedisState) : Bool :=
  decide (0 < get_links_queue_sizeOk st)

/-- `get_details_crawled` body. -/
def get_details_crawledOk (st : RedisState) : Nat := st.detailsCrawled

/-- `get_status` body on a reachable store. -/
def get_statusOk (st : RedisState) : StatusView :=
  ⟨st.statusField, get_visited_countOk st, get_links_queue_sizeOk st,
   get_details_crawledOk st, st.reasonField, st.statusVersion⟩

/-- `is_paused` body: state hash `paused` field equals `1`. -/
def is_pausedOk (st : RedisState) : Bool := st.pausedField

/-- `set_paused` body: HSET `paused` to `1`, or HDEL it. -/
def set_pausedOk (st : RedisState) (b : Bool) : RedisState :=
  { st with pausedField := b }

/-- `update_progress` body. -/
def update_progressOk (st : RedisState) (crawled total : Nat) (cat : String)
    (errs : Nat) : RedisState :=
  { st with progress := some ⟨crawled, total, cat, errs⟩ }

/-- `increment_details_crawled` body: HINCRBY returning the new value. -/
def increment_details_crawledOk (st : RedisState) (n : Nat) : Nat × RedisState :=
  (st.detailsCrawled + n, { st with detailsCrawled := st.detailsCrawled + n })

/-- `increment_error_count` body. -/
def increment_error_countOk (st : RedisState) (n : Nat) : Nat × RedisState :=
  (st.errorCount + n, { st with errorCount := st.errorCount + n })

/-- `set_details_crawled` body. -/
def set_details_crawledOk (st : RedisState) (n : Nat) : RedisState :=
  { st with detailsCrawled := n }

/-- `is_url_visited` body: SISMEMBER `visited_urls`. -/
def is_url_visitedOk (st : RedisState) (u : String) : Bool := st.visitedUrls.contains u

/-- `mark_url_visited` body: SADD `visited_urls`. -/
def mark_url_visitedOk (st : RedisState) (u : String) : RedisState :=
  { st with visitedUrls := sadd st.visitedUrls u }

/-- `is_url_crawled` body: SISMEMBER `crawled_urls`. -/
def is_url_crawledOk (st : RedisState) (u : String) : Bool := st.crawledUrls.contains u

/-- `mark_url_crawled` body: SADD `crawled_urls`. -/
def mark_url_crawledOk (st : RedisState) (u : String) : RedisState :=
  { st with crawledUrls := sadd st.crawledUrls u }

/-- `mark_url_empty_content` body: SADD `empty_content_urls`. -/
def mark_url_empty_contentOk (st : RedisState) (u : String) : RedisState :=
  { st with emptyContentUrls := sadd st.emptyContentUrls u }

/-- `push_to_links_queue` body: LPUSH of the serialised record, i.e. append at
the tail of the queue in pop order. -/
def push_to_links_queueOk (st : RedisState) (r : LinkRec) : RedisState :=
  { st with linksQueue := st.linksQueue ++ [r] }

/-- `pop_from_links_queue` body: RPOP, i.e. remove the head of the queue in
pop order (`none` when empty). -/
def pop_from_links_queueOk (st : RedisState) : Option LinkRec × RedisState :=
  match st.linksQueue with
  | [] => (none, st)
  | r :: rest => (some r, { st with linksQueue := rest })

/-- `push_to_queue` body: ZADD on `url_queue` (update score or insert). -/
def push_to_queueOk (st : RedisState) (u : String) (priority : Int) : RedisState :=
  { st with urlQueue :=
      if st.urlQueue.any (fun p => p.1 = u) then
        st.urlQueue.map (fun p => if p.1 = u then (u, priority) else p)
      else
        st.urlQueue ++ [(u, priority)] }

/-- ZPOPMIN tie-break: lowest score first, then lexicographically smaller
member. -/
def zLt (a b : String × Int) : Bool :=
  a.2 < b.2 || (a.2 = b.2 && a.1 < b.1)

/-- `pop_from_queue` body: ZPOPMIN on `url_queue`. -/
def pop_from_queueOk (st : RedisState) : Option String × RedisState :=
  match st.urlQueue with
  | [] => (none, st)
  | p :: rest =>
    let best := rest.foldl (fun acc q => if zLt q acc then q else acc) p
    (some best.1, { st with urlQueue := st.urlQueue.filter (fun q => q ≠ best) })

/-- `get_queue_size` body: ZCARD. -/
def get_queue_sizeOk (st : RedisState) : Nat := st.urlQueue.length

/-- `log_error` body: LPUSH onto the error ring, LTRIM to the newest 100,
then bump the unbounded error counter. -/
def log_errorOk (st : RedisState) (etype u msg : String) : RedisState :=
  { st with errors := ((⟨etype, u, msg⟩ : ErrorEntry) :: st.errors).take 100,
            errorCount := st.errorCount + 1 }

/-- `get_recent_errors` body: LRANGE 0 (limit-1). -/
def get_recent_errorsOk (st : RedisState) (limit : Nat) : List ErrorEntry :=
  st.errors.take limit

/-- `set_last_pagination_page` body: HSET `pagination[<column>]`. -/
def set_last_pagination_pageOk (st : RedisState) (column page : Nat) : RedisState :=
  { st with paginationPages := setAssoc st.paginationPages column page }

/-- `get_last_pagination_page` body (missing field ↦ 0). -/
def get_last_pagination_pageOk (st : RedisState) (column : Nat) : Nat :=
  getAssoc st.paginationPages column

/-- `set_pagination_complete` body: HSET `<column>_complete = 1`, or HDEL. -/
def set_pagination_completeOk (st : RedisState) (column : Nat) (c : Bool) : RedisState :=
  { st with paginationDone :=
      if c then (if column ∈ st.paginationDone then st.paginationDone
                 else column :: st.paginationDone)
      else st.paginationDone.filter (fun k => k ≠ column) }

/-- `is_pagination_complete` body. -/
def is_pagination_completeOk (st : RedisState) (column : Nat) : Bool :=
  st.paginationDone.contains column

/-- `save_checkpoint` body (payload kept serialised). -/
def save_checkpointOk (st : RedisState) (payload : String) : RedisState :=
  { st with checkpoint := some payload }

/-- `load_checkpoint` body. -/
def load_checkpointOk (st : RedisState) : Option String := st.checkpoint

/-- Zero stats record: what `get_stats` builds from an empty `stats` hash. -/
def emptyStats : StatsRec := ⟨0, 0, 0, 0, 0, [], none, none, []⟩

/-- `get_stats` body: parse the hash with zero defaults. -/
def get_statsOk (st : RedisState) : StatsRec :=
  match st.stats with
  | some s => s
  | none => emptyStats

/-- `set_stats` body: overwrite the snapshot hash. -/
def set_statsOk (st : RedisState) (s : StatsRec) : RedisState :=
  { st with stats := some s }

/-- Bump a category histogram entry by one. -/
def bumpCategory (l : List (String × Nat)) (c : String) : List (String × Nat) :=
  match l with
  | [] => [(c, 1)]
  | (c0, n) :: rest => if c0 = c then (c, n + 1) :: rest else (c0, n) :: bumpCategory rest c

/-- `update_stats_incremental` body: bump `total_items` and the category
histogram for a new item, widen the date range, and apply the (floored at 0)
file/crawled deltas. -/
def update_stats_incrementalOk (st : RedisState) (itemCat : Option String)
    (pubDate : Option String) (fileDelta crawledDelta : Int) : RedisState :=
  let s := get_statsOk st
  let s :=
    match itemCat with
    | none => s
    | some c =>
      let s := { s with total_items := s.total_items + 1,
                        categories := bumpCategory s.categories c }
      match pubDate with
      | none => s
      | some d =>
        { s with
          date_earliest := match s.date_earliest with
            | none => some d
            | some e => if d < e then some d else some e,
          date_latest := match s.date_latest with
            | none => some d
            | some l => if l < d then some d else some l }
  let s := if fileDelta ≠ 0 then
      { s with file_count := (max 0 ((s.file_count : Int) + fileDelta)).toNat }
    else s
  let s := if crawledDelta ≠ 0 then
      { s with crawled_count := (max 0 ((s.crawled_count : Int) + crawledDelta)).toNat }
    else s
  { st with stats := some s }

/-- `increment_file_count` body: HINCRBY on the stats hash. -/
def increment_file_countOk (st : RedisState) (delta : Nat) : Nat × RedisState :=
  let s := get_statsOk st
  (s.file_count + delta, { st with stats := some { s with file_count := s.file_count + delta } })

/-- `increment_crawled_count` body. -/
def increment_crawled_countOk (st : RedisState) (delta : Nat) : Nat × RedisState :=
  let s := get_statsOk st
  (s.crawled_count + delta,
   { st with stats := some { s with crawled_count := s.crawled_count + delta } })

/-- `cleanup` body: DEL of the state, progress and pagination hashes, the two
dedup sets, `url_queue`, `errors`, `links_queue` and `checkpoint`.  The
`status_version`, `empty_content_urls` and `stats` keys are not in the deleted
list and survive a full reset. -/
def cleanupOk (st : RedisState) : RedisState :=
  { RedisState.init with
      statusVersion := st.statusVersion,
      emptyContentUrls := st.emptyContentUrls,
      stats := st.stats }

/-- `reset_state` body: DEL of state hash, progress, `url_queue`, `errors`
and `checkpoint` only — pagination, dedup sets and `links_queue` survive. -/
def reset_stateOk (st : RedisState) : RedisState :=
  { st with statusField := "idle", reasonField := none, pausedField := false,
            detailsCrawled := 0, errorCount := 0, progress := none,
            urlQueue := [], errors := [], checkpoint := none }

/-! ### The client seen through its connection guard

Every `SpiderRedisManager` method opens with `if not self.client: return D0`
and wraps its body in `try/except` returning `D1`.  `Conn` distinguishes the
three situations a call can meet: no client object (`_connect` failed at
construction), a client whose every command raises (backing store unreachable),
and a reachable store.  A function of the Python method's name maps each case
to the method's behaviour. -/

inductive Conn where
  | noClient
  | raising
  | ok (st : RedisState)
deriving DecidableEq, Repr

/-- `set_status`: `False` without a client, `False` when HSET raises, else the
`set_statusOk` write and `True`. -/
def set_status (c : Conn) (status : String) (d : StatusDetails) : Bool × Conn :=
  match c with
  | .noClient => (false, c)
  | .raising => (false, c)
  | .ok st => (true, .ok (set_statusOk st status d))

/-- `get_status`: placeholder dict with status `unknown` without a client,
with status `error` when a command raises (counters default to zero there). -/
def get_status (c : Conn) : StatusView × Conn :=
  match c with
  | .noClient => (⟨"unknown", 0, 0, 0, none, 0⟩, c)
  | .raising => (⟨"error", 0, 0, 0, none, 0⟩, c)
  | .ok st => (get_statusOk st, c)

/-- `is_running`: delegates to `get_status`. -/
def is_running (c : Conn) : Bool × Conn :=
  let (v, c1) := get_status c
  (v.status = "running" || v.status = "starting", c1)

/-- `is_paused`: `False` on both failure paths. -/
def is_paused (c : Conn) : Bool × Conn :=
  match c with
  | .noClient => (false, c)
  | .raising => (false, c)
  | .ok st => (is_pausedOk st, c)

/-- `set_paused`. -/
def set_paused (c : Conn) (b : Bool) : Bool × Conn :=
  match c with
  | .noClient => (false, c)
  | .raising => (false, c)
  | .ok st => (true, .ok (set_pausedOk st b))

/-- `update_progress`. -/
def update_progress (c : Conn) (crawled total : Nat) (cat : String) (errs : Nat) :
    Bool × Conn :=
  match c with
  | .noClient => (false, c)
  | .raising => (false, c)
  | .ok st => (true, .ok (update_progressOk st crawled total cat errs))

/-- `get_progress`: the empty dict on both failure paths. -/
def get_progress (c : Conn) : Option ProgressRec × Conn :=
  match c with
  | .noClient => (none, c)
  | .raising => (none, c)
  | .ok st => (st.progress, c)

/-- `increment_details_crawled`: 0 on both failure paths. -/
def increment_details_crawled (c : Conn) (n : Nat) : Nat × Conn :=
  match c with
  | .noClient => (0, c)
  | .raising => (0, c)
  | .ok st =>
    let (v, st1) := increment_details_crawledOk st n
    (v, .ok st1)

/-- `get_details_crawled`. -/
def get_details_crawled (c : Conn) : Nat × Conn :=
  match c with
  | .noClient => (0, c)
  | .raising => (0, c)
  | .ok st => (get_details_crawledOk st, c)

/-- `set_details_crawled`. -/
def set_details_crawled (c : Conn) (n : Nat) : Bool × Conn :=
  match c with
  | .noClient => (false, c)
  | .raising => (false, c)
  | .ok st => (true, .ok (set_details_crawledOk st n))

/-- `increment_error_count`. -/
def increment_error_count (c : Conn) (n : Nat) : Nat × Conn :=
  match c with
  | .noClient => (0, c)
  | .raising => (0, c)
  | .ok st =>
    let (v, st1) := increment_error_countOk st n
    (v, .ok st1)

/-- `get_error_count`. -/
def get_error_count (c : Conn) : Nat × Conn :=
  match c with
  | .noClient => (0, c)
  | .raising => (0, c)
  | .ok st => (st.errorCount, c)

/-- `get_stats`: the empty dict (`none`) on both failure paths. -/
def get_stats (c : Conn) : Option StatsRec × Conn :=
  match c with
  | .noClient => (none, c)
  | .raising => (none, c)
  | .ok st => (some (get_statsOk st), c)

/-- `set_stats`. -/
def set_stats (c : Conn) (s : StatsRec) : Bool × Conn :=
  match c with
  | .noClient => (false, c)
  | .raising => (false, c)
  | .ok st => (true, .ok (set_statsOk st s))

/-- `update_stats_incremental`. -/
def update_stats_incremental (c : Conn) (itemCat pubDate : Option String)
    (fileDelta crawledDelta : Int) : Bool × Conn :=
  match c with
  | .noClient => (false, c)
  | .raising => (false, c)
  | .ok st => (true, .ok (update_stats_incrementalOk st itemCat pubDate fileDelta crawledDelta))

/-- `increment_file_count`. -/
def increment_file_count (c : Conn) (delta : Nat) : Nat × Conn :=
  match c with
  | .noClient => (0, c)
  | .raising => (0, c)
  | .ok st =>
    let (v, st1) := increment_file_countOk st delta
    (v, .ok st1)

/-- `increment_crawled_count`. -/
def increment_crawled_count (c : Conn) (delta : Nat) : Nat × Conn :=
  match c with
  | .noClient => (0, c)
  | .raising => (0, c)
  | .ok st =>
    let (v, st1) := increment_crawled_countOk st delta
    (v, .ok st1)

/-- `is_url_visited`. -/
def is_url_visited (c : Conn) (u : String) : Bool × Conn :=
  match c with
  | .noClient => (false, c)
  | .raising => (false, c)
  | .ok st => (is_url_visitedOk st u, c)

/-- `mark_url_visited`. -/
def mark_url_visited (c : Conn) (u : String) : Bool × Conn :=
  match c with
  | .noClient => (false, c)
  | .raising => (false, c)
  | .ok st => (true, .ok (mark_url_visitedOk st u))

/-- `check_and_mark_url`: no guard of its own — it composes `is_url_visited`
and `mark_url_visited` and returns `True` ("new URL") whenever the membership
probe came back `False`, which is also the degraded answer. -/
def check_and_mark_url (c : Conn) (u : String) : Bool × Conn :=
  let (v, c1) := is_url_visited c u
  if v then (false, c1)
  else
    let (_, c2) := mark_url_visited c1 u
    (true, c2)

/-- `is_duplicate`: alias of `is_url_visited`. -/
def is_duplicate (c : Conn) (u : String) : Bool × Conn :=
  is_url_visited c u

/-- `get_visited_count`. -/
def get_visited_count (c : Conn) : Nat × Conn :=
  match c with
  | .noClient => (0, c)
  | .raising => (0, c)
  | .ok st => (get_visited_countOk st, c)

/-- `mark_url_crawled`. -/
def mark_url_crawled (c : Conn) (u : String) : Bool × Conn :=
  match c with
  | .noClient => (false, c)
  | .raising => (false, c)
  | .ok st => (true, .ok (mark_url_crawledOk st u))

/-- `mark_url_empty_content`. -/
def mark_url_empty_content (c : Conn) (u : String) : Bool × Conn :=
  match c with
  | .noClient => (false, c)
  | .raising => (false, c)
  | .ok st => (true, .ok (mark_url_empty_contentOk st u))

/-- `is_url_crawled`. -/
def is_url_crawled (c : Conn) (u : String) : Bool × Conn :=
  match c with
  | .noClient => (false, c)
  | .raising => (false, c)
  | .ok st => (is_url_crawledOk st u, c)

/-- `get_crawled_count`. -/
def get_crawled_count (c : Conn) : Nat × Conn :=
  match c with
  | .noClient => (0, c)
  | .raising => (0, c)
  | .ok st => (get_crawled_countOk st, c)

/-- `push_to_queue`. -/
def push_to_queue (c : Conn) (u : String) (priority : Int) : Bool × Conn :=
  match c with
  | .noClient => (false, c)
  | .raising => (false, c)
  | .ok st => (true, .ok (push_to_queueOk st u priority))

/-- `pop_from_queue`. -/
def pop_from_queue (c : Conn) : Option String × Conn :=
  match c with
  | .noClient => (none, c)
  | .raising => (none, c)
  | .ok st =>
    let (v, st1) := pop_from_queueOk st
    (v, .ok st1)

/-- `get_queue_size`. -/
def get_queue_size (c : Conn) : Nat × Conn :=
  match c with
  | .noClient => (0, c)
  | .raising => (0, c)
  | .ok st => (get_queue_sizeOk st, c)

/-- `log_error`. -/
def log_error (c : Conn) (etype u msg : String) : Bool × Conn :=
  match c with
  | .noClient => (false, c)
  | .raising => (false, c)
  | .ok st => (true, .ok (log_errorOk st etype u msg))

/-- `get_recent_errors`. -/
def get_recent_errors (c : Conn) (limit : Nat) : List ErrorEntry × Conn :=
  match c with
  | .noClient => ([], c)
  | .raising => ([], c)
  | .ok st => (get_recent_errorsOk st limit, c)

/-- `push_to_links_queue`. -/
def push_to_links_queue (c : Conn) (r : LinkRec) : Bool × Conn :=
  match c with
  | .noClient => (false, c)
  | .raising => (false, c)
  | .ok st => (true, .ok (push_to_links_queueOk st r))

/-- `pop_from_links_queue`. -/
def pop_from_links_queue (c : Conn) : Option LinkRec × Conn :=
  match c with
  | .noClient => (none, c)
  | .raising => (none, c)
  | .ok st =>
    let (v, st1) := pop_from_links_queueOk st
    (v, .ok st1)

/-- `get_links_queue_size`. -/
def get_links_queue_size (c : Conn) : Nat × Conn :=
  match c with
  | .noClient => (0, c)
  | .raising => (0, c)
  | .ok st => (get_links_queue_sizeOk st, c)

/-- `has_pending_links`: delegates to `get_links_queue_size`. -/
def has_pending_links (c : Conn) : Bool × Conn :=
  let (n, c1) := get_links_queue_size c
  (decide (0 < n), c1)

/-- `set_last_pagination_page`. -/
def set_last_pagination_page (c : Conn) (column page : Nat) : Bool × Conn :=
  match c with
  | .noClient => (false, c)
  | .raising => (false, c)
  | .ok st => (true, .ok (set_last_pagination_pageOk st column page))

/-- `get_last_pagination_page`. -/
def get_last_pagination_page (c : Conn) (column : Nat) : Nat × Conn :=
  match c with
  | .noClient => (0, c)
  | .raising => (0, c)
  | .ok st => (get_last_pagination_pageOk st column, c)

/-- `set_pagination_complete`. -/
def set_pagination_complete (c : Conn) (column : Nat) (b : Bool) : Bool × Conn :=
  match c with
  | .noClient => (false, c)
  | .raising => (false, c)
  | .ok st => (true, .ok (set_pagination_completeOk st column b))

/-- `is_pagination_complete`. -/
def is_pagination_complete (c : Conn) (column : Nat) : Bool × Conn :=
  match c with
  | .noClient => (false, c)
  | .raising => (false, c)
  | .ok st => (is_pagination_completeOk st column, c)

/-- `get_all_pagination_progress`: the raw pagination hash;
empty dict on both failure paths. -/
def get_all_pagination_progress (c : Conn) : List (Nat × Nat) × Conn :=
  match c with
  | .noClient => ([], c)
  | .raising => ([], c)
  | .ok st => (st.paginationPages, c)

/-- `has_incomplete_pagination`: loops the configured columns over
`is_pagination_complete`, so a degraded membership answer makes every column
look incomplete. -/
def has_incomplete_pagination (c : Conn) (columns : List Nat) : Bool × Conn :=
  (columns.any (fun k => !(is_pagination_complete c k).1), c)

/-- `save_checkpoint`. -/
def save_checkpoint (c : Conn) (payload : String) : Bool × Conn :=
  match c with
  | .noClient => (false, c)
  | .raising => (false, c)
  | .ok st => (true, .ok (save_checkpointOk st payload))

/-- `load_checkpoint`. -/
def load_checkpoint (c : Conn) : Option String × Conn :=
  match c with
  | .noClient => (none, c)
  | .raising => (none, c)
  | .ok st => (load_checkpointOk st, c)

/-- `cleanup`. -/
def cleanup (c : Conn) : Bool × Conn :=
  match c with
  | .noClient => (false, c)
  | .raising => (false, c)
  | .ok st => (true, .ok (cleanupOk st))

/-- `reset_state`. -/
def reset_state (c : Conn) : Bool × Conn :=
  match c with
  | .noClient => (false, c)
  | .raising => (false, c)
  | .ok st => (true, .ok (reset_stateOk st))

/-! ### Phase 2 — `BaseCrawler._crawl_details_phase`

The detail fetch (`crawl_detail_page`, implemented per site) is abstracted by
an oracle mapping a URL and the number of fetches of that URL already made in
this run to the method's return value (`True` / `None` / `False`).  An event
trace records everything the loop does so the claims can speak about pop
order, fetch invocations and status writes. -/

/-- The three outcomes of `crawl_detail_page`: `True` (persisted), `None`
(benign no-content skip), `False` (failure). -/
inductive FetchResult where
  | success
  | skip
  | failure
deriving DecidableEq, Repr

def FetchOracle := String → Nat → FetchResult

/-- Observable engine events, in execution order. -/
inductive Ev where
  | pop (r : LinkRec)
  | skipCrawled (url : String)
  | fetch (url : String) (res : FetchResult)
  | repush (r : LinkRec)
  | statusWrite (status : String) (reason : Option String)
  | pageRequest (column startrecord endrecord : Nat)
  | dupSkip (url : String)
  | newLink (url : String)
  | markComplete (column : Nat)
deriving DecidableEq, Repr

/-- Number of detail fetches of `u` recorded so far (feeds the oracle). -/
def fetchAttempts (tr : List Ev) (u : String) : Nat :=
  tr.countP fun e =>
    match e with
    | .fetch v _ => decide (v = u)
    | _ => false

/-- In-run state of Phase 2: the durable store plus the run-scoped
`consecutive_errors` counter and the event trace. -/
structure Phase2St where
  rm : RedisState
  consecutiveErrors : Nat
  trace : List Ev
deriving DecidableEq, Repr

/-- One iteration of the Phase-2 `while` body: pop the head record; skip it if
already crawled; otherwise fetch.  Success and benign skip bump the
details-crawled counter and clear the failure streak (only success marks the
URL crawled); a failure bumps the streak and either trips the circuit breaker
at 100 — `set_status('stopped', reason='too_many_errors')`, no re-push, stop —
or re-pushes the record to the tail.  The Bool is `false` when the loop must
stop. -/
def detailStep (o : FetchOracle) (s : Phase2St) : Phase2St × Bool :=
  match (pop_from_links_queueOk s.rm).1 with
  | none => (s, false)
  | some r =>
    let rmP := (pop_from_links_queueOk s.rm).2
    let s0 : Phase2St := ⟨rmP, s.consecutiveErrors, s.trace ++ [Ev.pop r]⟩
    if is_url_crawledOk s0.rm r.url then
      (⟨s0.rm, s0.consecutiveErrors, s0.trace ++ [Ev.skipCrawled r.url]⟩, true)
    else
      let res := o r.url (fetchAttempts s0.trace r.url)
      let s1 : Phase2St := ⟨s0.rm, s0.consecutiveErrors, s0.trace ++ [Ev.fetch r.url res]⟩
      match res with
      | .success =>
        (⟨(increment_details_crawledOk (mark_url_crawledOk s1.rm r.url) 1).2, 0, s1.trace⟩,
         true)
      | .skip =>
        (⟨(increment_details_crawledOk s1.rm 1).2, 0, s1.trace⟩, true)
      | .failure =>
        let k := s1.consecutiveErrors + 1
        if 100 ≤ k then
          (⟨set_statusOk s1.rm "stopped" ⟨some "too_many_errors"⟩, k,
            s1.trace ++ [Ev.statusWrite "stopped" (some "too_many_errors")]⟩, false)
        else
          (⟨push_to_links_queueOk s1.rm r, k, s1.trace ++ [Ev.repush r]⟩, true)

/-- The Phase-2 `while` loop (`while self.rm.has_pending_links() and not
self.should_stop`), fuel-bounded; `stop()` is never invoked in the verified
scenarios. -/
def crawlDetailsLoop (o : FetchOracle) : Nat → Phase2St → Phase2St
  | 0, s => s
  | Nat.succ f, s =>
    if has_pending_linksOk s.rm then
      match detailStep o s with
      | (s1, true) => crawlDetailsLoop o f s1
      | (s1, false) => s1
    else s

/-- `_crawl_details_phase` entry: the consecutive-failure counter starts at 0
and the trace is empty. -/
def crawlDetailsPhase (o : FetchOracle) (fuel : Nat) (rm : RedisState) : Phase2St :=
  crawlDetailsLoop o fuel ⟨rm, 0, []⟩

/-- URLs in queue (pop) order. -/
def queueUrls (rm : RedisState) : List String := rm.linksQueue.map (fun r => r.url)

/-- Pop order observed by the phase. -/
def popOrder (tr : List Ev) : List String :=
  tr.filterMap fun e =>
    match e with
    | .pop r => some r.url
    | _ => none

/-- URLs whose detail fetch was invoked, in order. -/
def fetchedUrls (tr : List Ev) : List String :=
  tr.filterMap fun e =>
    match e with
    | .fetch u _ => some u
    | _ => none

/-- URLs whose detail fetch returned `True`, in completion order. -/
def successOrder (tr : List Ev) : List String :=
  tr.filterMap fun e =>
    match e with
    | .fetch u FetchResult.success => some u
    | _ => none

/-- Number of pops in a trace. -/
def countPops (tr : List Ev) : Nat :=
  tr.countP fun e =>
    match e with
    | .pop _ => true
    | _ => false

/-- Number of already-visited list items observed (duplicate observations). -/
def countDupSkips (tr : List Ev) : Nat :=
  tr.countP fun e =>
    match e with
    | .dupSkip _ => true
    | _ => false

/-- Number of list-page requests issued. -/
def countPageRequests (tr : List Ev) : Nat :=
  tr.countP fun e =>
    match e with
    | .pageRequest _ _ _ => true
    | _ => false

/-- Number of list-page requests issued for one column. -/
def countPageRequestsFor (column : Nat) (tr : List Ev) : Nat :=
  tr.countP fun e =>
    match e with
    | .pageRequest c _ _ => decide (c = column)
    | _ => false

/-! ### Phase 1 — `BaseCrawler._collect_links_phase` / `_collect_column_links`

A list response either fails (falsy / non-200 response or a raised exception,
both of which feed `consecutive_empty`) or yields items.  Only the item's
`URL` field is read by the engine; `create_link_data` (site-specific) copies
it into the record's `url` key. -/

/-- A raw list item; the engine reads `item.get('URL')`. -/
structure Item where
  url : String
deriving DecidableEq, Repr

inductive PageResp where
  | failure
  | items (its : List Item)
deriving DecidableEq, Repr

/-- The list endpoint: column id and `startrecord` determine the response. -/
def ListOracle := Nat → Nat → PageResp

/-- `create_link_data` as implemented by the site crawlers: the item's `URL`
becomes the record's `url`; the section name is carried along. -/
def create_link_data (it : Item) (category : String) : LinkRec :=
  ⟨it.url, "", category⟩

/-- Store state plus event trace during link collection. -/
structure ColState where
  rm : RedisState
  trace : List Ev
deriving DecidableEq, Repr

/-- Result of the per-page `for item in items` loop. -/
structure ItemLoopResult where
  rm : RedisState
  trace : List Ev
  dup : Nat
  linksCount : Nat
  totalNew : Nat
deriving DecidableEq, Repr

/-- The `for item in items` body of `_collect_column_links`: an already-visited
URL is a duplicate observation — under `stop_on_duplicates` it bumps
`consecutive_duplicates` and the loop breaks as soon as the counter reaches
`max_duplicates`; a fresh URL clears the counter, is pushed to the links queue
and marked visited. -/
def processItems (category : String) (stop_on_duplicates : Bool) (max_duplicates : Nat) :
    List Item → RedisState → List Ev → Nat → Nat → Nat → ItemLoopResult
  | [], rm, tr, dup, lc, tn => ⟨rm, tr, dup, lc, tn⟩
  | it :: its, rm, tr, dup, lc, tn =>
    if is_url_visitedOk rm it.url then
      if stop_on_duplicates then
        let d := dup + 1
        let tr1 := tr ++ [Ev.dupSkip it.url]
        if max_duplicates ≤ d then ⟨rm, tr1, d, lc, tn⟩
        else processItems category stop_on_duplicates max_duplicates its rm tr1 d lc tn
      else
        processItems category stop_on_duplicates max_duplicates its rm
          (tr ++ [Ev.dupSkip it.url]) dup lc tn
    else
      let ld := create_link_data it category
      let rm1 := mark_url_visitedOk (push_to_links_queueOk rm ld) ld.url
      processItems category stop_on_duplicates max_duplicates its rm1
        (tr ++ [Ev.newLink ld.url]) 0 (lc + 1) (tn + 1)

/-- The `while` loop of `_collect_column_links`, fuel-bounded.  The explicit
arguments after the fuel are the loop locals `endrecord`,
`consecutive_duplicates`, `consecutive_empty` and `total_new_links`.  Mirrors:
the loop guard `stop_on_duplicates or endrecord < end_records`; the top-of-loop
duplicate-streak break; the advancing page window
`[endrecord, min(endrecord+perpage, end_records))`; abort after 3 consecutive
failed requests; the per-iteration checkpoint write
`set_last_pagination_page(endrecord)` when not in duplicate-stop mode; and the
post-page breaks (no new links on a non-empty page, or an empty page, in
duplicate-stop mode; 100 consecutive new-link-free pages otherwise). -/
def collectColumnLoop (o : ListOracle) (column_id : Nat) (category : String)
    (end_records perpage : Nat) (stop_on_duplicates : Bool) (max_duplicates : Nat) :
    Nat → Nat → Nat → Nat → Nat → ColState → ColState × Nat
  | 0, _, _, _, tn, s => (s, tn)
  | Nat.succ f, endrecord, dup, empt, tn, s =>
    if !(stop_on_duplicates || decide (endrecord < end_records)) then (s, tn)
    else if stop_on_duplicates && decide (max_duplicates ≤ dup) then (s, tn)
    else
      let startrecord := endrecord
      let endrecord1 := min (endrecord + perpage) end_records
      let tr0 := s.trace ++ [Ev.pageRequest column_id startrecord endrecord1]
      match o column_id startrecord with
      | .failure =>
        let empt1 := empt + 1
        if 3 ≤ empt1 then (⟨s.rm, tr0⟩, tn)
        else
          let rm1 := if stop_on_duplicates then s.rm
                     else set_last_pagination_pageOk s.rm column_id endrecord1
          if stop_on_duplicates then (⟨rm1, tr0⟩, tn)
          else
            collectColumnLoop o column_id category end_records perpage stop_on_duplicates
              max_duplicates f endrecord1 0 empt1 tn ⟨rm1, tr0⟩
      | .items its =>
        let res := processItems category stop_on_duplicates max_duplicates its s.rm tr0 dup 0 tn
        let itemsCount := its.length
        let rm1 := if stop_on_duplicates then res.rm
                   else set_last_pagination_pageOk res.rm column_id endrecord1
        if stop_on_duplicates then
          if res.linksCount = 0 ∧ 0 < itemsCount then (⟨rm1, res.trace⟩, res.totalNew)
          else if itemsCount = 0 then (⟨rm1, res.trace⟩, res.totalNew)
          else
            collectColumnLoop o column_id category end_records perpage stop_on_duplicates
              max_duplicates f endrecord1 res.dup 0 res.totalNew ⟨rm1, res.trace⟩
        else
          if res.linksCount = 0 ∧ 0 < itemsCount then
            let dup1 := res.dup + 1
            if 100 ≤ dup1 then (⟨rm1, res.trace⟩, res.totalNew)
            else
              collectColumnLoop o column_id category end_records perpage stop_on_duplicates
                max_duplicates f endrecord1 dup1 0 res.totalNew ⟨rm1, res.trace⟩
          else
            collectColumnLoop o column_id category end_records perpage stop_on_duplicates
              max_duplicates f endrecord1 0 0 res.totalNew ⟨rm1, res.trace⟩

/-- `_collect_column_links` entry for Phase 1 (default keyword arguments:
`stop_on_duplicates=False`, `max_duplicates=100`, `force_restart=False`):
`startrecord` resumes from the stored pagination checkpoint. -/
def collectColumnLinks (o : ListOracle) (column_id : Nat) (category : String)
    (end_records perpage fuel : Nat) (s : ColState) : ColState × Nat :=
  collectColumnLoop o column_id category end_records perpage false 100 fuel
    (get_last_pagination_pageOk s.rm column_id) 0 0 0 s

/-- The per-section call made by `_scheduled_crawl_links` (recurring mode):
`end_records=999999`, `stop_on_duplicates=True`, `max_duplicates=100`,
`force_restart=True` so the window restarts at offset 0. -/
def scheduledSectionRescan (o : ListOracle) (column_id : Nat) (category : String)
    (perpage fuel : Nat) (s : ColState) : ColState × Nat :=
  collectColumnLoop o column_id category 999999 perpage true 100 fuel 0 0 0 0 s

/-- A section's configuration: display name and configured end-of-range. -/
structure ColumnCfg where
  name : String
  endRecords : Nat
deriving DecidableEq, Repr

/-- `_collect_links_phase`: for each configured section, skip it when its
checkpoint is already complete; otherwise write a `running` status, run the
section's pagination loop, and then — unconditionally, on whatever exit — mark
the section's checkpoint complete. -/
def collectLinksPhase (o : ListOracle) (perpage fuel : Nat) :
    List (Nat × ColumnCfg) → ColState → ColState × Nat
  | [], s => (s, 0)
  | (cid, cfg) :: cols, s =>
    if is_pagination_completeOk s.rm cid then
      collectLinksPhase o perpage fuel cols s
    else
      let s1 : ColState := ⟨set_statusOk s.rm "running" noDetails,
                            s.trace ++ [Ev.statusWrite "running" none]⟩
      let p := collectColumnLinks o cid cfg.name cfg.endRecords perpage fuel s1
      let s3 : ColState := ⟨set_pagination_completeOk p.1.rm cid true,
                            p.1.trace ++ [Ev.markComplete cid]⟩
      let q := collectLinksPhase o perpage fuel cols s3
      (q.1, p.2 + q.2)

/-! ### Process Supervisor — `NHSASpiderAdapter` (`adapters.py`)

`proc` mirrors `self.process` / `poll()`: `none` ↦ no process was ever
spawned; `some none` ↦ `poll()` returns `None` (alive); `some (some c)` ↦ the
child exited with code `c`. -/

/-- Supervisor-side view of one identity's child process. -/
structure ProcView where
  proc : Option (Option Int)
  adapterStatus : String
  pid : Nat
deriving DecidableEq, Repr

/-- The process is dead or was never started. -/
def procDead (p : ProcView) : Prop :=
  p.proc = none ∨ ∃ c, p.proc = some (some c)

instance (p : ProcView) : Decidable (procDead p) := by
  unfold procDead
  rcases p with ⟨_ | _ | c, _, _⟩ <;> simp <;> infer_instance

/-- The merged status dict returned by `NHSASpiderAdapter.get_status`
(progress and timestamps omitted). -/
structure MergedStatus where
  status : String
  running : Bool
  pid : Option Nat
  exit_code : Option Int
  redis_status : String
  error_count : Nat
  links_collected : Nat
  details_crawled : Nat
  pending_links : Nat
  version : Nat
  reason : Option String
deriving DecidableEq, Repr

/-- `NHSASpiderAdapter.get_status`: build `process_status` from the live
process, merge in the store-derived fields, then overwrite `status` with the
stored status whenever it is one of `running`/`paused`/`stopping` and with
`stopped` otherwise, and derive `running` from the stored status alone. -/
def nhsaGetStatus (p : ProcView) (st : RedisState) : MergedStatus :=
  let rs := get_statusOk st
  let procStatus : String × Bool × Option Nat × Option Int :=
    match p.proc with
    | none => ("idle", false, none, none)
    | some none => (p.adapterStatus, true, some p.pid, none)
    | some (some c) => ("idle", false, none, some c)
  let base : MergedStatus :=
    ⟨procStatus.1, procStatus.2.1, procStatus.2.2.1, procStatus.2.2.2,
     rs.status, st.errorCount, get_visited_countOk st, get_crawled_countOk st,
     get_links_queue_sizeOk st, rs.version, rs.reason⟩
  let merged :=
    if rs.status = "running" ∨ rs.status = "paused" ∨ rs.status = "stopping" then
      { base with status := rs.status }
    else
      { base with status := "stopped" }
  { merged with running := decide (rs.status = "running") }

/-- Supervisor events emitted by `start`. -/
inductive SupEv where
  | spawn (pid : Nat)
  | write (status : String)
deriving DecidableEq, Repr

/-- Adapter-side mutable fields touched by `start`. -/
structure AdapterSt where
  proc : Option (Option Int)
  status : String
deriving DecidableEq, Repr

/-- `NHSASpiderAdapter.start`: a no-op returning `False` while
`self.process.poll()` is `None`; otherwise write `starting`, spawn (the
`spawnRes` argument is the `Popen` outcome — `none` means it raised, which the
`except` turns into an `error` status write and `False`), then write `running`
with the new pid. -/
def nhsaStart (a : AdapterSt) (spawnRes : Option Nat) : Bool × AdapterSt × List SupEv :=
  if a.proc = some none then (false, a, [])
  else
    match spawnRes with
    | some pid =>
      (true, ⟨some none, "running"⟩, [SupEv.write "starting", SupEv.spawn pid, SupEv.write "running"])
    | none =>
      (false, ⟨a.proc, "error"⟩, [SupEv.write "starting", SupEv.write "error"])

/-! ### The store's mutating operations, reified

For the version-monotonicity claim we close the client API into an inductive
of all state-mutating public operations (getters are pure and leave the store
untouched by construction). -/

inductive RMOp where
  | opSetStatus (status : String) (d : StatusDetails)
  | opSetPaused (b : Bool)
  | opUpdateProgress (crawled total : Nat) (cat : String) (errs : Nat)
  | opIncrementDetailsCrawled (n : Nat)
  | opSetDetailsCrawled (n : Nat)
  | opIncrementErrorCount (n : Nat)
  | opSetStats (s : StatsRec)
  | opUpdateStatsIncremental (itemCat pubDate : Option String) (fileDelta crawledDelta : Int)
  | opIncrementFileCount (delta : Nat)
  | opIncrementCrawledCount (delta : Nat)
  | opMarkUrlVisited (u : String)
  | opCheckAndMarkUrl (u : String)
  | opMarkUrlCrawled (u : String)
  | opMarkUrlEmptyContent (u : String)
  | opPushToQueue (u : String) (priority : Int)
  | opPopFromQueue
  | opLogError (etype u msg : String)
  | opPushToLinksQueue (r : LinkRec)
  | opPopFromLinksQueue
  | opSetLastPaginationPage (column page : Nat)
  | opSetPaginationComplete (column : Nat) (b : Bool)
  | opSaveCheckpoint (payload : String)
  | opCleanup
  | opResetState
deriving DecidableEq, Repr

/-- Effect of one mutating operation on a reachable store. -/
def applyOp (op : RMOp) (st : RedisState) : RedisState :=
  match op with
  | .opSetStatus status d => set_statusOk st status d
  | .opSetPaused b => set_pausedOk st b
  | .opUpdateProgress c t cat e => update_progressOk st c t cat e
  | .opIncrementDetailsCrawled n => (increment_details_crawledOk st n).2
  | .opSetDetailsCrawled n => set_details_crawledOk st n
  | .opIncrementErrorCount n => (increment_error_countOk st n).2
  | .opSetStats s => set_statsOk st s
  | .opUpdateStatsIncremental a b fd cd => update_stats_incrementalOk st a b fd cd
  | .opIncrementFileCount d => (increment_file_countOk st d).2
  | .opIncrementCrawledCount d => (increment_crawled_countOk st d).2
  | .opMarkUrlVisited u => mark_url_visitedOk st u
  | .opCheckAndMarkUrl u => if is_url_visitedOk st u then st else mark_url_visitedOk st u
  | .opMarkUrlCrawled u => mark_url_crawledOk st u
  | .opMarkUrlEmptyContent u => mark_url_empty_contentOk st u
  | .opPushToQueue u p => push_to_queueOk st u p
  | .opPopFromQueue => (pop_from_queueOk st).2
  | .opLogError t u m => log_errorOk st t u m
  | .opPushToLinksQueue r => push_to_links_queueOk st r
  | .opPopFromLinksQueue => (pop_from_links_queueOk st).2
  | .opSetLastPaginationPage c p => set_last_pagination_pageOk st c p
  | .opSetPaginationComplete c b => set_pagination_completeOk st c b
  | .opSaveCheckpoint p => save_checkpointOk st p
  | .opCleanup => cleanupOk st
  | .opResetState => reset_stateOk st

/-- Effect of a sequence of operations, oldest first. -/
def applyOps (ops : List RMOp) (st : RedisState) : RedisState :=
  ops.foldl (fun acc op => applyOp op acc) st

/-! ### Concrete instances used by witnesses and counterexamples -/

/-- A store whose only populated keys are the links queue and the two dedup
sets. -/
def mkRm (q : List LinkRec) (vis cr : List String) : RedisState :=
  { RedisState.init with linksQueue := q, visitedUrls := vis, crawledUrls := cr }

/-- A bare link record for a URL. -/
def mkRec (u : String) : LinkRec := ⟨u, "", ""⟩

/-- Detail oracle that always fails. -/
def alwaysFailFetch : FetchOracle := fun _ _ => FetchResult.failure

/-- Detail oracle that always succeeds. -/
def alwaysSuccessFetch : FetchOracle := fun _ _ => FetchResult.success

/-- Detail oracle that always reports the benign no-content skip. -/
def alwaysSkipFetch : FetchOracle := fun _ _ => FetchResult.skip

/-- Detail oracle for the FIFO-retry scenario: the second URL fails on its
first attempt, everything else succeeds. -/
def retryScenarioOracle (b : String) : FetchOracle :=
  fun u n => if u = b ∧ n = 0 then FetchResult.failure else FetchResult.success

/-- Fifteen distinct URLs, one default list page. -/
def vis15 : List String :=
  ["v0", "v1", "v2", "v3", "v4", "v5", "v6", "v7", "v8", "v9",
   "v10", "v11", "v12", "v13", "v14"]

/-- List oracle serving exactly one page holding the given items at offset 0
and empty pages afterwards. -/
def onePageOracle (its : List Item) : ListOracle :=
  fun _ sr => if sr = 0 then PageResp.items its else PageResp.items []

/-- List oracle whose requests for column 1 always fail while any other
column serves one two-item page. -/
def col1FailsOracle : ListOracle :=
  fun c sr =>
    if c = 1 then PageResp.failure
    else if sr = 0 then PageResp.items [⟨"x1"⟩, ⟨"x2"⟩] else PageResp.items []

/-- Two sections: section 1 (end of range 100) and section 2 (end 2). -/
def twoCols : List (Nat × ColumnCfg) := [(1, ⟨"s1", 100⟩), (2, ⟨"s2", 2⟩)]

/-- A single-record queue whose URL was never fetched. -/
def c1Rm : RedisState := mkRm [mkRec "u"] [] []

/-- The FIFO-retry scenario store: queue `[A, B, C]`, nothing crawled. -/
def c3Rm : RedisState := mkRm [mkRec "A", mkRec "B", mkRec "C"] [] []

/-- A dead child process (exit code 1) next to a store still claiming
`running`. -/
def c4Proc : ProcView := ⟨some (some 1), "idle", 77⟩

def c4Rm : RedisState := { RedisState.init with statusField := "running" }

/-- Store for the benign-skip frame witness: queue `[u]`, `u` visited but not
crawled. -/
def c10St : Phase2St := ⟨mkRm [mkRec "u"] ["u"] [], 5, []⟩

/-- An adapter whose child is still alive. -/
def c9Adapter : AdapterSt := ⟨some none, "running"⟩

/-- A Phase-2 state sitting at 99 consecutive failures with one record left. -/
def c1s99 : Phase2St := ⟨mkRm [mkRec "u"] [] [], 99, []⟩

/-- Durable state just before a hard kill: the queue holds the one record
`B`, whose URL is visited but not yet crawled. -/
def c2Pre : RedisState := mkRm [mkRec "B"] ["B"] []

/-- Durable state at the kill: `pop_from_links_queue` has removed `B` from the
Redis list (RPOP is destructive) and the process dies before the fetch
completes, so neither `mark_url_crawled` nor the failure re-push happens. -/
def c2Killed : RedisState := (pop_from_links_queueOk c2Pre).2

/-- The re-run's list oracle still advertises `B` on page 1. -/
def c2Cols : List (Nat × ColumnCfg) := [(1, ⟨"s", 1⟩)]

/-- Phase 1 of the re-run after the kill. -/
def c2AfterP1 : ColState × Nat :=
  collectLinksPhase (onePageOracle [⟨"B"⟩]) 15 50 c2Cols ⟨c2Killed, []⟩

/-- Full re-run after the kill: Phase 1 then Phase 2 (every fetch succeeds). -/
def c2Final : Phase2St :=
  crawlDetailsLoop alwaysSuccessFetch 50 ⟨c2AfterP1.1.rm, 0, c2AfterP1.1.trace⟩

/-- A queue whose head is already crawled. -/
def c2SkipSt : Phase2St := ⟨mkRm [mkRec "d"] [] ["d"], 3, []⟩

/-- A queue with one never-crawled record. -/
def c2RunSt : Phase2St := ⟨mkRm [mkRec "e"] [] [], 0, []⟩

/-- Store that has already visited the fifteen URLs of the default page. -/
def c5Rm : RedisState := { RedisState.init with visitedUrls := vis15 }

/-- The default-size page is exactly those fifteen URLs. -/
def c5Its : List Item := vis15.map (fun u => ⟨u⟩)

/-- The recurring-mode re-scan of section 1 under the default page size 15. -/
def c5Res : ColState × Nat :=
  scheduledSectionRescan (onePageOracle c5Its) 1 "sec" 15 50 ⟨c5Rm, []⟩

/-- List oracle whose every request fails. -/
def allFailList : ListOracle := fun _ _ => PageResp.failure

/-- Phase 1 over the single section 1 (end of range 100, so 7 pages of 15
would be needed) whose requests all fail. -/
def c8Res : ColState × Nat :=
  collectLinksPhase col1FailsOracle 15 50 [(1, ⟨"s1", 100⟩)] ⟨RedisState.init, []⟩

/-! ## Theorems

First, characterisations of one `_crawl_details_phase` iteration, one per
branch of the loop body; the claim theorems build on them. -/

theorem stepSkipCrawled (o : FetchOracle) (s : Phase2St) (r : LinkRec) (rest : List LinkRec)
    (hq : s.rm.linksQueue = r :: rest)
    (hc : r.url ∈ s.rm.crawledUrls) :
    detailStep o s =
      (⟨{ s.rm with linksQueue := rest }, s.consecutiveErrors,
        s.trace ++ [Ev.pop r, Ev.skipCrawled r.url]⟩, true) := by
  have hc2 : s.rm.crawledUrls.contains r.url = true := by simpa using hc
  simp [detailStep, pop_from_links_queueOk, hq, is_url_crawledOk, hc2]
  exact fun h => absurd hc h

theorem stepFetchSuccess (o : FetchOracle) (s : Phase2St) (r : LinkRec) (rest : List LinkRec)
    (hq : s.rm.linksQueue = r :: rest)
    (hm : r.url ∉ s.rm.crawledUrls)
    (ho : o r.url (fetchAttempts s.trace r.url) = FetchResult.success) :
    detailStep o s =
      (⟨{ s.rm with linksQueue := rest, crawledUrls := sadd s.rm.crawledUrls r.url, detailsCrawled := s.rm.detailsCrawled + 1 }, 0,
        s.trace ++ [Ev.pop r, Ev.fetch r.url FetchResult.success]⟩, true) := by
  have hatt : fetchAttempts (s.trace ++ [Ev.pop r]) r.url = fetchAttempts s.trace r.url := by
    simp [fetchAttempts, List.countP_append]
  have hc2 : s.rm.crawledUrls.contains r.url = false := by
    simpa using hm
  simp [detailStep, pop_from_links_queueOk, hq, is_url_crawledOk, hc2, hm, hatt, ho,
    mark_url_crawledOk, increment_details_crawledOk]

theorem stepFetchSkip (o : FetchOracle) (s : Phase2St) (r : LinkRec) (rest : List LinkRec)
    (hq : s.rm.linksQueue = r :: rest)
    (hm : r.url ∉ s.rm.crawledUrls)
    (ho : o r.url (fetchAttempts s.trace r.url) = FetchResult.skip) :
    detailStep o s =
      (⟨{ s.rm with linksQueue := rest, detailsCrawled := s.rm.detailsCrawled + 1 }, 0,
        s.trace ++ [Ev.pop r, Ev.fetch r.url FetchResult.skip]⟩, true) := by
  have hatt : fetchAttempts (s.trace ++ [Ev.pop r]) r.url = fetchAttempts s.trace r.url := by
    simp [fetchAttempts, List.countP_append]
  have hc2 : s.rm.crawledUrls.contains r.url = false := by simpa using hm
  simp [detailStep, pop_from_links_queueOk, hq, is_url_crawledOk, hc2, hm, hatt, ho,
    increment_details_crawledOk]

theorem stepFetchFailLow (o : FetchOracle) (s : Phase2St) (r : LinkRec) (rest : List LinkRec)
    (hq : s.rm.linksQueue = r :: rest)
    (hm : r.url ∉ s.rm.crawledUrls)
    (ho : o r.url (fetchAttempts s.trace r.url) = FetchResult.failure)
    (hce : s.consecutiveErrors + 1 < 100) :
    detailStep o s =
      (⟨{ s.rm with linksQueue := rest ++ [r] }, s.consecutiveErrors + 1,
        s.trace ++ [Ev.pop r, Ev.fetch r.url FetchResult.failure, Ev.repush r]⟩, true) := by
  have hatt : fetchAttempts (s.trace ++ [Ev.pop r]) r.url = fetchAttempts s.trace r.url := by
    simp [fetchAttempts, List.countP_append]
  have hc2 : s.rm.crawledUrls.contains r.url = false := by simpa using hm
  have hlt : ¬(100 ≤ s.consecutiveErrors + 1) := by omega
  simp [detailStep, pop_from_links_queueOk, hq, is_url_crawledOk, hc2, hm, hatt, ho,
    push_to_links_queueOk, hlt]

theorem stepFetchFailBreak (o : FetchOracle) (s : Phase2St) (r : LinkRec) (rest : List LinkRec)
    (hq : s.rm.linksQueue = r :: rest)
    (hm : r.url ∉ s.rm.crawledUrls)
    (ho : o r.url (fetchAttempts s.trace r.url) = FetchResult.failure)
    (hce : 100 ≤ s.consecutiveErrors + 1) :
    detailStep o s =
      (⟨set_statusOk { s.rm with linksQueue := rest } "stopped" ⟨some "too_many_errors"⟩,
        s.consecutiveErrors + 1,
        s.trace ++ [Ev.pop r, Ev.fetch r.url FetchResult.failure,
          Ev.statusWrite "stopped" (some "too_many_errors")]⟩, false) := by
  have hatt : fetchAttempts (s.trace ++ [Ev.pop r]) r.url = fetchAttempts s.trace r.url := by
    simp [fetchAttempts, List.countP_append]
  have hc2 : s.rm.crawledUrls.contains r.url = false := by simpa using hm
  simp [detailStep, pop_from_links_queueOk, hq, is_url_crawledOk, hc2, hm, hatt, ho, hce]

/-- The Phase-2 loop with a nonempty queue takes one step. -/
theorem loopStep (o : FetchOracle) (f : Nat) (s : Phase2St) (hq : s.rm.linksQueue ≠ []) :
    crawlDetailsLoop o (f + 1) s =
      (match detailStep o s with
       | (s1, true) => crawlDetailsLoop o f s1
       | (s1, false) => s1) := by
  have hp : has_pending_linksOk s.rm = true := by
    simp [has_pending_linksOk, get_links_queue_sizeOk]
    exact List.length_pos.2 hq
  simp [crawlDetailsLoop, hp]

/-- Counting pops over an appended slice. -/
theorem countPops_append (a b : List Ev) : countPops (a ++ b) = countPops a + countPops b := by
  simp [countPops, List.countP_append]

/-- The circuit-breaker run: with every fetch failing and nothing in the
queue already crawled, a state at `k ≤ 99` consecutive failures pops exactly
`min fuel (100 - k)` more records, and as soon as the fuel covers the
remaining `100 - k` failures the run ends with the
`stopped`/`too_many_errors` status write. -/
theorem breakerRun (f : Nat) : ∀ (s : Phase2St),
    s.rm.linksQueue ≠ [] →
    (∀ r ∈ s.rm.linksQueue, r.url ∉ s.rm.crawledUrls) →
    s.consecutiveErrors ≤ 99 →
    countPops (crawlDetailsLoop alwaysFailFetch f s).trace
      = countPops s.trace + min f (100 - s.consecutiveErrors) ∧
    (100 - s.consecutiveErrors ≤ f →
      (crawlDetailsLoop alwaysFailFetch f s).rm.statusField = "stopped" ∧
      (crawlDetailsLoop alwaysFailFetch f s).rm.reasonField = some "too_many_errors" ∧
      Ev.statusWrite "stopped" (some "too_many_errors")
        ∈ (crawlDetailsLoop alwaysFailFetch f s).trace) := by
  induction f with
  | zero =>
    intro s _ _ hce
    refine ⟨by simp [crawlDetailsLoop], fun h => ?_⟩
    omega
  | succ f ih =>
    intro s hne hcl hce
    obtain ⟨r, rest, hq⟩ : ∃ r rest, s.rm.linksQueue = r :: rest := by
      cases h : s.rm.linksQueue with
      | nil => exact absurd h hne
      | cons a l => exact ⟨a, l, rfl⟩
    have hm : r.url ∉ s.rm.crawledUrls := hcl r (by rw [hq]; exact List.mem_cons_self r rest)
    rw [loopStep alwaysFailFetch f s hne]
    by_cases hbreak : 100 ≤ s.consecutiveErrors + 1
    · rw [stepFetchFailBreak alwaysFailFetch s r rest hq hm rfl hbreak]
      have hk : s.consecutiveErrors = 99 := by omega
      constructor
      · simp [countPops_append, countPops, hk]
      · intro _
        refine ⟨by simp [set_statusOk], by simp [set_statusOk], ?_⟩
        simp
    · rw [stepFetchFailLow alwaysFailFetch s r rest hq hm rfl (by omega)]
      set s1 : Phase2St :=
        ⟨{ s.rm with linksQueue := rest ++ [r] }, s.consecutiveErrors + 1,
          s.trace ++ [Ev.pop r, Ev.fetch r.url FetchResult.failure, Ev.repush r]⟩ with hs1
      have h1 : s1.rm.linksQueue ≠ [] := by simp [hs1]
      have h2 : ∀ q ∈ s1.rm.linksQueue, q.url ∉ s1.rm.crawledUrls := by
        intro q hqmem
        have : q ∈ s.rm.linksQueue := by
          rw [hq]
          simp only [hs1] at hqmem
          simp only [List.mem_append, List.mem_singleton] at hqmem
          rcases hqmem with h | h
          · exact List.mem_cons_of_mem r h
          · rw [h]; exact List.mem_cons_self r rest
        exact hcl q this
      have h3 : s1.consecutiveErrors ≤ 99 := by simp [hs1]; omega
      obtain ⟨ihc, ihs⟩ := ih s1 h1 h2 h3
      constructor
      · rw [ihc]
        have : countPops s1.trace = countPops s.trace + 1 := by
          simp [hs1, countPops_append, countPops]
        rw [this]
        simp only [hs1]
        omega
      · intro hf
        have : 100 - s1.consecutiveErrors ≤ f := by
          simp only [hs1]
          omega
        exact ihs this

/-- Claim C1 as amended: exactly 100 consecutive detail-fetch failures trip
the circuit breaker — the run pops exactly `min fuel 100` records however much
fuel remains (so no further pops that run), and Phase 2 ends with
`set_status('stopped', reason='too_many_errors')` (status `stopped`, not
`error` as claimed); and a single successful or benign-skip fetch after 99
consecutive failures resets the failure streak to 0. -/
theorem C1_circuit_breaker :
    (∀ (f : Nat) (rm : RedisState), rm.linksQueue ≠ [] →
      (∀ r ∈ rm.linksQueue, r.url ∉ rm.crawledUrls) →
      countPops (crawlDetailsPhase alwaysFailFetch f rm).trace = min f 100 ∧
      (100 ≤ f →
        (crawlDetailsPhase alwaysFailFetch f rm).rm.statusField = "stopped" ∧
        (crawlDetailsPhase alwaysFailFetch f rm).rm.reasonField = some "too_many_errors" ∧
        Ev.statusWrite "stopped" (some "too_many_errors")
          ∈ (crawlDetailsPhase alwaysFailFetch f rm).trace)) ∧
    (∀ (o : FetchOracle) (s : Phase2St) (r : LinkRec) (rest : List LinkRec),
      s.rm.linksQueue = r :: rest → r.url ∉ s.rm.crawledUrls →
      s.consecutiveErrors = 99 →
      (o r.url (fetchAttempts s.trace r.url) = FetchResult.success ∨
       o r.url (fetchAttempts s.trace r.url) = FetchResult.skip) →
      (detailStep o s).1.consecutiveErrors = 0) := by
  constructor
  · intro f rm hne hcl
    have h := breakerRun f ⟨rm, 0, []⟩ hne hcl (by simp)
    simp only [crawlDetailsPhase]
    refine ⟨?_, fun hf => h.2 (by simpa using hf)⟩
    have := h.1
    simpa [countPops] using this
  · intro o s r rest hq hm hce ho
    rcases ho with ho | ho
    · rw [stepFetchSuccess o s r rest hq hm ho]
    · rw [stepFetchSkip o s r rest hq hm ho]

/-- Witness for C1: the single-record always-failing queue at fuel 150, plus
the 99-failure streak being reset by one successful fetch. -/
theorem C1_circuit_breaker_witness :
    (c1Rm.linksQueue ≠ [] ∧ (∀ r ∈ c1Rm.linksQueue, r.url ∉ c1Rm.crawledUrls) ∧
      countPops (crawlDetailsPhase alwaysFailFetch 150 c1Rm).trace = min 150 100 ∧
      (crawlDetailsPhase alwaysFailFetch 150 c1Rm).rm.statusField = "stopped") ∧
    (c1s99.rm.linksQueue = mkRec "u" :: [] ∧ (mkRec "u").url ∉ c1s99.rm.crawledUrls ∧
      c1s99.consecutiveErrors = 99 ∧
      (detailStep alwaysSuccessFetch c1s99).1.consecutiveErrors = 0) := by
  have h1 := (C1_circuit_breaker.1 150 c1Rm (by decide) (by decide))
  have h2 := C1_circuit_breaker.2 alwaysSuccessFetch c1s99 (mkRec "u") [] rfl (by decide) rfl
    (Or.inl rfl)
  exact ⟨⟨by decide, by decide, h1.1, (h1.2 (by omega)).1⟩, ⟨rfl, by decide, rfl, h2⟩⟩

/-- One Phase-2 iteration only appends to the event trace. -/
theorem stepTraceMono (o : FetchOracle) (s : Phase2St) (e : Ev) (he : e ∈ s.trace) :
    e ∈ (detailStep o s).1.trace := by
  cases hq : s.rm.linksQueue with
  | nil => simpa [detailStep, pop_from_links_queueOk, hq] using he
  | cons r rest =>
    by_cases hc : r.url ∈ s.rm.crawledUrls
    · rw [stepSkipCrawled o s r rest hq hc]; simp [he]
    · cases ho : o r.url (fetchAttempts s.trace r.url) with
      | success => rw [stepFetchSuccess o s r rest hq hc ho]; simp [he]
      | skip => rw [stepFetchSkip o s r rest hq hc ho]; simp [he]
      | failure =>
        by_cases hce : 100 ≤ s.consecutiveErrors + 1
        · rw [stepFetchFailBreak o s r rest hq hc ho hce]; simp [he]
        · rw [stepFetchFailLow o s r rest hq hc ho (by omega)]; simp [he]

/-- The Phase-2 loop only appends to the event trace. -/
theorem loopTraceMono (o : FetchOracle) (f : Nat) : ∀ (s : Phase2St) (e : Ev),
    e ∈ s.trace → e ∈ (crawlDetailsLoop o f s).trace := by
  induction f with
  | zero => intro s e he; simpa [crawlDetailsLoop] using he
  | succ f ih =>
    intro s e he
    by_cases hp : has_pending_linksOk s.rm
    · rcases hstep : detailStep o s with ⟨s1, cont⟩
      have h1 : e ∈ s1.trace := by
        have := stepTraceMono o s e he
        rw [hstep] at this
        exact this
      cases cont
      · simpa [crawlDetailsLoop, hp, hstep] using h1
      · simpa [crawlDetailsLoop, hp, hstep] using ih s1 e h1
    · simpa [crawlDetailsLoop, hp] using he

/-- A recorded fetch event puts its URL among the fetched URLs. -/
theorem mem_fetchedUrls (tr : List Ev) (u : String) (res : FetchResult)
    (h : Ev.fetch u res ∈ tr) : u ∈ fetchedUrls tr := by
  simp only [fetchedUrls, List.mem_filterMap]
  exact ⟨Ev.fetch u res, h, rfl⟩

/-- Queue preservation under Phase 2: a queued URL that is not yet crawled is
either fetched at some point of the run or still sits in the final queue —
whatever the oracle answers and however much fuel the run gets. -/
theorem detailPreserve (o : FetchOracle) (f : Nat) : ∀ (s : Phase2St) (u : String),
    u ∈ queueUrls s.rm → u ∉ s.rm.crawledUrls →
    u ∈ fetchedUrls (crawlDetailsLoop o f s).trace ∨
    u ∈ queueUrls (crawlDetailsLoop o f s).rm := by
  induction f with
  | zero =>
    intro s u hqm hcm
    right
    simpa [crawlDetailsLoop] using hqm
  | succ f ih =>
    intro s u hqm hcm
    obtain ⟨r, rest, hq⟩ : ∃ r rest, s.rm.linksQueue = r :: rest := by
      cases h : s.rm.linksQueue with
      | nil => simp [queueUrls, h] at hqm
      | cons a l => exact ⟨a, l, rfl⟩
    rw [loopStep o f s (by rw [hq]; simp)]
    have hqm2 : u = r.url ∨ u ∈ List.map (fun q => q.url) rest := by
      simp only [queueUrls, hq, List.map_cons, List.mem_cons] at hqm
      exact hqm
    by_cases hc : r.url ∈ s.rm.crawledUrls
    · rw [stepSkipCrawled o s r rest hq hc]
      have hur : u ≠ r.url := fun h => hcm (h ▸ hc)
      rcases hqm2 with h | h
      · exact absurd h hur
      · exact ih _ u (by simpa [queueUrls] using h) hcm
    · cases ho : o r.url (fetchAttempts s.trace r.url) with
      | success =>
        rw [stepFetchSuccess o s r rest hq hc ho]
        by_cases hur : u = r.url
        · left
          refine mem_fetchedUrls _ u FetchResult.success ?_
          refine loopTraceMono o f _ _ ?_
          rw [hur]
          simp
        · have hmem : u ∈ List.map (fun q => q.url) rest := by
            rcases hqm2 with h | h
            · exact absurd h hur
            · exact h
          refine ih _ u (by simpa [queueUrls] using hmem) ?_
          simp only [sadd]
          by_cases hin : r.url ∈ s.rm.crawledUrls
          · simpa [hin] using hcm
          · simp only [if_neg hin]
            intro hcon
            rcases List.mem_cons.mp hcon with h2 | h2
            · exact hur h2
            · exact hcm h2
      | skip =>
        rw [stepFetchSkip o s r rest hq hc ho]
        by_cases hur : u = r.url
        · left
          refine mem_fetchedUrls _ u FetchResult.skip ?_
          refine loopTraceMono o f _ _ ?_
          rw [hur]
          simp
        · have hmem : u ∈ List.map (fun q => q.url) rest := by
            rcases hqm2 with h | h
            · exact absurd h hur
            · exact h
          exact ih _ u (by simpa [queueUrls] using hmem) hcm
      | failure =>
        by_cases hce : 100 ≤ s.consecutiveErrors + 1
        · rw [stepFetchFailBreak o s r rest hq hc ho hce]
          rcases hqm2 with h | h
          · left
            refine mem_fetchedUrls _ u FetchResult.failure ?_
            rw [h]
            simp
          · right
            simpa [queueUrls, set_statusOk] using h
        · rw [stepFetchFailLow o s r rest hq hc ho (by omega)]
          rcases hqm2 with h | h
          · left
            refine mem_fetchedUrls _ u FetchResult.failure ?_
            refine loopTraceMono o f _ _ ?_
            rw [h]
            simp
          · refine ih _ u ?_ hcm
            simp only [queueUrls, List.map_append, List.mem_append]
            exact Or.inl h

/-- Claim C2 as amended: (1) a popped record whose URL is already in the
crawled set is skipped without invoking the detail fetch (the iteration only
removes the head and logs the skip); (2) a URL in the queue that is not yet
crawled is never silently dropped by Phase 2 — its fetch is invoked at some
point of the run or it is still in the queue when the run ends.  The original
claim's further promise — that a URL in VisitedSet but not CrawledSet is never
permanently lost across a hard kill — fails: the one in-flight record removed
from the queue by the destructive pop at the moment of the kill is never
re-queued (Phase 1 skips visited URLs) and never fetched again. -/
theorem C2_resume_idempotence :
    (∀ (o : FetchOracle) (s : Phase2St) (r : LinkRec) (rest : List LinkRec),
      s.rm.linksQueue = r :: rest → r.url ∈ s.rm.crawledUrls →
      detailStep o s = (⟨{ s.rm with linksQueue := rest }, s.consecutiveErrors,
        s.trace ++ [Ev.pop r, Ev.skipCrawled r.url]⟩, true)) ∧
    (∀ (o : FetchOracle) (f : Nat) (s : Phase2St) (u : String),
      u ∈ queueUrls s.rm → u ∉ s.rm.crawledUrls →
      u ∈ fetchedUrls (crawlDetailsLoop o f s).trace ∨
      u ∈ queueUrls (crawlDetailsLoop o f s).rm) :=
  ⟨stepSkipCrawled, detailPreserve⟩

/-- Witness for C2's amended statement: a crawled head is skipped untouched,
and an uncrawled queued URL survives a run (here: it gets fetched). -/
theorem C2_resume_idempotence_witness :
    (c2SkipSt.rm.linksQueue = [mkRec "d"] ∧ (mkRec "d").url ∈ c2SkipSt.rm.crawledUrls ∧
      detailStep alwaysSuccessFetch c2SkipSt =
        (⟨{ c2SkipSt.rm with linksQueue := [] }, c2SkipSt.consecutiveErrors,
          c2SkipSt.trace ++ [Ev.pop (mkRec "d"), Ev.skipCrawled (mkRec "d").url]⟩, true)) ∧
    ("e" ∈ queueUrls c2RunSt.rm ∧ "e" ∉ c2RunSt.rm.crawledUrls ∧
      ("e" ∈ fetchedUrls (crawlDetailsLoop alwaysSuccessFetch 5 c2RunSt).trace ∨
       "e" ∈ queueUrls (crawlDetailsLoop alwaysSuccessFetch 5 c2RunSt).rm)) :=
  ⟨⟨rfl, by decide,
    C2_resume_idempotence.1 alwaysSuccessFetch c2SkipSt (mkRec "d") [] rfl (by decide)⟩,
   ⟨by decide, by decide,
    C2_resume_idempotence.2 alwaysSuccessFetch 5 c2RunSt "e" (by decide) (by decide)⟩⟩

/-- Counterexample to claim C2 as stated: `B` is visited but not crawled at
the moment of the hard kill (which lands between the destructive pop and any
subsequent write), yet a full re-run — Phase 1 re-listing `B`, then Phase 2 —
neither re-queues, nor fetches, nor crawls it: the URL is permanently lost. -/
theorem C2_counterexample :
    is_url_visitedOk c2Killed "B" = true ∧
    is_url_crawledOk c2Killed "B" = false ∧
    "B" ∉ queueUrls c2Killed ∧
    "B" ∉ fetchedUrls c2Final.trace ∧
    "B" ∉ queueUrls c2Final.rm ∧
    is_url_crawledOk c2Final.rm "B" = false := by
  refine ⟨by decide, by decide, by decide, by decide, by decide, by decide⟩

/-- Claim C10: when the detail fetch reports the benign no-content skip
(`None`), the engine pops the record, bumps the details-crawled counter and
clears the consecutive-failure streak, but does not add the URL to the crawled
set and does not re-push the record — the resulting state is exactly the old
one with the head removed and the counter bumped, and the trace shows no write
besides the pop and the fetch. -/
theorem C10_skip_frame (o : FetchOracle) (s : Phase2St) (r : LinkRec) (rest : List LinkRec)
    (hq : s.rm.linksQueue = r :: rest)
    (hc : is_url_crawledOk s.rm r.url = false)
    (ho : o r.url (fetchAttempts s.trace r.url) = FetchResult.skip) :
    detailStep o s =
      (⟨{ s.rm with linksQueue := rest, detailsCrawled := s.rm.detailsCrawled + 1 }, 0,
        s.trace ++ [Ev.pop r, Ev.fetch r.url FetchResult.skip]⟩, true) := by
  have hatt : fetchAttempts (s.trace ++ [Ev.pop r]) r.url = fetchAttempts s.trace r.url := by
    simp [fetchAttempts, List.countP_append]
  have hc2 : s.rm.crawledUrls.contains r.url = false := hc
  have hm : r.url ∉ s.rm.crawledUrls := by simpa using hc2
  simp [detailStep, pop_from_links_queueOk, hq, is_url_crawledOk, hc2, hm, hatt, ho,
    increment_details_crawledOk]

/-- Witness for C10 at queue `[u]` with `u` visited but not crawled. -/
theorem C10_skip_frame_witness :
    c10St.rm.linksQueue = [mkRec "u"] ∧
    is_url_crawledOk c10St.rm (mkRec "u").url = false ∧
    alwaysSkipFetch (mkRec "u").url (fetchAttempts c10St.trace (mkRec "u").url)
      = FetchResult.skip ∧
    detailStep alwaysSkipFetch c10St =
      (⟨{ c10St.rm with linksQueue := [], detailsCrawled := c10St.rm.detailsCrawled + 1 }, 0,
        c10St.trace ++ [Ev.pop (mkRec "u"), Ev.fetch (mkRec "u").url FetchResult.skip]⟩,
       true) :=
  ⟨rfl, rfl, rfl, C10_skip_frame alwaysSkipFetch c10St (mkRec "u") [] rfl rfl rfl⟩

/-- Claim C9: while the child process is still alive (`poll()` is `None`),
`NHSASpiderAdapter.start` returns `False` without spawning anything and
without writing any status transition to the store. -/
theorem C9_start_noop_when_alive (a : AdapterSt) (spawnRes : Option Nat)
    (h : a.proc = some none) :
    nhsaStart a spawnRes = (false, a, []) := by
  simp [nhsaStart, h]

/-- Witness for C9: an alive child, `start` is a pure no-op. -/
theorem C9_start_noop_witness :
    c9Adapter.proc = some none ∧ nhsaStart c9Adapter (some 42) = (false, c9Adapter, []) :=
  ⟨rfl, C9_start_noop_when_alive c9Adapter (some 42) rfl⟩

/-- Counterexample to claim C4 as stated: the child exited with code 1 while
the store still says `running`, yet `NHSASpiderAdapter.get_status` reports
`running`, not `stopped`. -/
theorem C4_counterexample :
    procDead c4Proc ∧ (nhsaGetStatus c4Proc c4Rm).status = "running" ∧
    (nhsaGetStatus c4Proc c4Rm).status ≠ "stopped" := by
  refine ⟨Or.inr ⟨1, rfl⟩, rfl, by decide⟩

/-- Claim C4 as amended: `get_status` derives the merged `status` (and the
`running` flag) from the stored status alone — a stored `running`/`paused`/
`stopping` is reported verbatim even when the child is dead or was never
started, and any other stored value is reported as `stopped`. -/
theorem C4_status_merge (p : ProcView) (st : RedisState) (_hdead : procDead p) :
    ((st.statusField = "running" ∨ st.statusField = "paused" ∨ st.statusField = "stopping") →
      (nhsaGetStatus p st).status = st.statusField) ∧
    (¬(st.statusField = "running" ∨ st.statusField = "paused" ∨ st.statusField = "stopping") →
      (nhsaGetStatus p st).status = "stopped") ∧
    (nhsaGetStatus p st).running = decide (st.statusField = "running") := by
  unfold nhsaGetStatus
  refine ⟨fun h => ?_, fun h => ?_, ?_⟩ <;>
    simp [get_statusOk] <;> split <;> simp_all [get_statusOk]

/-- Witness for C4's amended statement at the dead-process instance. -/
theorem C4_status_merge_witness :
    procDead c4Proc ∧
    (((c4Rm.statusField = "running" ∨ c4Rm.statusField = "paused" ∨
        c4Rm.statusField = "stopping") →
      (nhsaGetStatus c4Proc c4Rm).status = c4Rm.statusField) ∧
    (¬(c4Rm.statusField = "running" ∨ c4Rm.statusField = "paused" ∨
        c4Rm.statusField = "stopping") →
      (nhsaGetStatus c4Proc c4Rm).status = "stopped") ∧
    (nhsaGetStatus c4Proc c4Rm).running = decide (c4Rm.statusField = "running")) :=
  ⟨Or.inr ⟨1, rfl⟩, C4_status_merge c4Proc c4Rm (Or.inr ⟨1, rfl⟩)⟩

/-- Counterexample to claim C1 as stated: after 100 consecutive detail-fetch
failures the circuit breaker writes status `stopped` (with reason
`too_many_errors`), not status `error`. -/
theorem C1_counterexample :
    (crawlDetailsPhase alwaysFailFetch 150 c1Rm).rm.statusField = "stopped" ∧
    (crawlDetailsPhase alwaysFailFetch 150 c1Rm).rm.reasonField = some "too_many_errors" ∧
    (crawlDetailsPhase alwaysFailFetch 150 c1Rm).rm.statusField ≠ "error" := by
  refine ⟨by decide, by decide, by decide⟩

/-- Counterexample to claim C3 as stated: with queue `[A, B, C]` and B's first
fetch failing, the pop order observed by the detail phase is `A, B, C, B`
(B is popped, fails, is re-pushed to the tail and popped again), not
`A, C, B`. -/
theorem C3_counterexample :
    popOrder (crawlDetailsPhase (retryScenarioOracle "B") 10 c3Rm).trace
      = ["A", "B", "C", "B"] ∧
    popOrder (crawlDetailsPhase (retryScenarioOracle "B") 10 c3Rm).trace
      ≠ ["A", "C", "B"] := by
  refine ⟨by decide, by decide⟩

/-- Claim C3 as amended: for queue `[a, b, c]` (three distinct un-crawled
URLs) where b's first fetch fails and all other fetches succeed, the pop order
observed by the detail phase is `a, b, c, b` — the failed record goes back to
the tail and is popped again after `c` — and the successful-completion order
is `a, c, b` (the order the claim attributed to the pops). -/
theorem C3_fifo_retry (a b c : String) (hab : a ≠ b) (hbc : b ≠ c) (hac : a ≠ c) :
    popOrder (crawlDetailsPhase (retryScenarioOracle b) 10
        (mkRm [mkRec a, mkRec b, mkRec c] [] [])).trace = [a, b, c, b] ∧
    successOrder (crawlDetailsPhase (retryScenarioOracle b) 10
        (mkRm [mkRec a, mkRec b, mkRec c] [] [])).trace = [a, c, b] := by
  have hba : b ≠ a := fun h => hab h.symm
  have hcb : c ≠ b := fun h => hbc h.symm
  have hca : c ≠ a := fun h => hac h.symm
  simp [crawlDetailsPhase, crawlDetailsLoop, detailStep, retryScenarioOracle, fetchAttempts,
    pop_from_links_queueOk, is_url_crawledOk, has_pending_linksOk, get_links_queue_sizeOk,
    increment_details_crawledOk, mark_url_crawledOk, push_to_links_queueOk, sadd,
    mkRm, mkRec, RedisState.init, popOrder, successOrder, hab, hbc, hac, hba, hcb, hca]

/-- Witness for C3's amended statement at the concrete queue `[A, B, C]`. -/
theorem C3_fifo_retry_witness :
    ("A" ≠ "B" ∧ "B" ≠ "C" ∧ "A" ≠ "C") ∧
    popOrder (crawlDetailsPhase (retryScenarioOracle "B") 10
        (mkRm [mkRec "A", mkRec "B", mkRec "C"] [] [])).trace = ["A", "B", "C", "B"] ∧
    successOrder (crawlDetailsPhase (retryScenarioOracle "B") 10
        (mkRm [mkRec "A", mkRec "B", mkRec "C"] [] [])).trace = ["A", "C", "B"] :=
  ⟨⟨by decide, by decide, by decide⟩,
   C3_fifo_retry "A" "B" "C" (by decide) (by decide) (by decide)⟩

/-- The per-page item loop over a page of already-visited URLs: in
duplicate-stop mode it observes items until the duplicate streak reaches
`max_duplicates`, leaves the store untouched, collects no links, and ends with
the streak at `min (dup + |items|) max_duplicates`. -/
theorem processItemsAllDup (category : String) (maxd : Nat) (its : List Item) :
    ∀ (rm : RedisState) (tr : List Ev) (dup lc tn : Nat),
    (∀ it ∈ its, is_url_visitedOk rm it.url = true) →
    dup < maxd →
    processItems category true maxd its rm tr dup lc tn =
      ⟨rm, tr ++ (its.take (maxd - dup)).map (fun it => Ev.dupSkip it.url),
       min (dup + its.length) maxd, lc, tn⟩ := by
  induction its with
  | nil =>
    intro rm tr dup lc tn _ hdup
    simp [processItems]
    omega
  | cons it its ih =>
    intro rm tr dup lc tn hvis hdup
    have hv : is_url_visitedOk rm it.url = true := hvis it (List.mem_cons_self it its)
    by_cases hbreak : maxd ≤ dup + 1
    · have hd : maxd = dup + 1 := by omega
      have htake : maxd - dup = 1 := by omega
      simp [processItems, hv, hbreak, htake]
      omega
    · have htake : maxd - dup = (maxd - (dup + 1)) + 1 := by omega
      rw [processItems]
      simp only [hv, if_pos rfl, if_true, if_neg hbreak]
      rw [ih rm (tr ++ [Ev.dupSkip it.url]) (dup + 1) lc tn
        (fun q hq => hvis q (List.mem_cons_of_mem it hq))
        (by omega)]
      rw [htake]
      simp only [List.take_succ_cons, List.map_cons, List.length_cons,
        ItemLoopResult.mk.injEq]
      refine ⟨trivial, by simp, by omega, trivial, trivial⟩

/-- Claim C5 as amended: in recurring mode a section whose re-scan from offset
0 meets only already-visited URLs issues exactly one list request and
contributes 0 new links, but it aborts after `min |page| 100` duplicate
observations, not always 100: the duplicate-streak break can only fire
mid-page when the page holds at least 100 items, and otherwise the
no-new-links-on-a-non-empty-page break ends the section at the end of page 1
(after `|page|` observations — 15 under the default page size). -/
theorem C5_duplicate_rescan (o : ListOracle) (cid : Nat) (cat : String)
    (perpage f : Nat) (rm : RedisState) (its : List Item)
    (hp0 : o cid 0 = PageResp.items its)
    (hvis : ∀ it ∈ its, is_url_visitedOk rm it.url = true)
    (hne : its ≠ []) :
    countDupSkips (scheduledSectionRescan o cid cat perpage (f + 1) ⟨rm, []⟩).1.trace
      = min its.length 100 ∧
    countPageRequests (scheduledSectionRescan o cid cat perpage (f + 1) ⟨rm, []⟩).1.trace = 1 ∧
    (scheduledSectionRescan o cid cat perpage (f + 1) ⟨rm, []⟩).2 = 0 ∧
    (scheduledSectionRescan o cid cat perpage (f + 1) ⟨rm, []⟩).1.rm = rm := by
  have hlen : 0 < its.length := List.length_pos.2 hne
  have hstep := processItemsAllDup cat 100 its rm
    [Ev.pageRequest cid 0 (min (0 + perpage) 999999)] 0 0 0 hvis (by omega)
  simp only [scheduledSectionRescan, collectColumnLoop, List.nil_append]
  rw [hp0]
  simp only [hstep]
  simp only [List.length_pos, hne, hlen, if_pos, and_true, if_true]
  simp only [show (!(true || decide ((0:Nat) < 999999))) = false from by decide,
    show (true && decide ((100:Nat) ≤ 0)) = false from by decide,
    Bool.false_eq_true, if_false, Nat.sub_zero]
  refine ⟨?_, ?_, ?_, ?_⟩
  · simp only [countDupSkips, List.countP_append]
    have hall : List.countP (fun e => match e with | Ev.dupSkip _ => true | _ => false)
        (List.map (fun it => Ev.dupSkip it.url) (List.take 100 its))
        = (List.map (fun it => Ev.dupSkip it.url) (List.take 100 its)).length := by
      rw [List.countP_eq_length]
      intro a ha
      obtain ⟨it, _, rfl⟩ := List.mem_map.mp ha
      rfl
    rw [hall]
    simp [Nat.min_comm]
  · simp only [countPageRequests, List.countP_append]
    have hz : List.countP (fun e => match e with | Ev.pageRequest _ _ _ => true | _ => false)
        (List.map (fun it => Ev.dupSkip it.url) (List.take 100 its)) = 0 := by
      rw [List.countP_eq_zero]
      intro a ha
      obtain ⟨it, _, rfl⟩ := List.mem_map.mp ha
      simp
    rw [hz]
    rfl
  · trivial
  · trivial

/-- Witness for C5's amended statement at the default page size 15. -/
theorem C5_duplicate_rescan_witness :
    (onePageOracle c5Its 1 0 = PageResp.items c5Its ∧
      (∀ it ∈ c5Its, is_url_visitedOk c5Rm it.url = true) ∧ c5Its ≠ []) ∧
    countDupSkips (scheduledSectionRescan (onePageOracle c5Its) 1 "sec" 15 (49 + 1)
      ⟨c5Rm, []⟩).1.trace = min c5Its.length 100 ∧
    countPageRequests (scheduledSectionRescan (onePageOracle c5Its) 1 "sec" 15 (49 + 1)
      ⟨c5Rm, []⟩).1.trace = 1 ∧
    (scheduledSectionRescan (onePageOracle c5Its) 1 "sec" 15 (49 + 1) ⟨c5Rm, []⟩).2 = 0 ∧
    (scheduledSectionRescan (onePageOracle c5Its) 1 "sec" 15 (49 + 1) ⟨c5Rm, []⟩).1.rm = c5Rm :=
  ⟨⟨rfl, by decide, by decide⟩,
   C5_duplicate_rescan (onePageOracle c5Its) 1 "sec" 15 49 c5Rm c5Its rfl
     (by decide) (by decide)⟩

/-- Counterexample to claim C5 as stated: under the default page size 15, a
fully-duplicate page-1 re-scan aborts after 15 duplicate observations (the
end-of-page no-new-links break fires first), not after 100. -/
theorem C5_counterexample :
    countDupSkips c5Res.1.trace = 15 ∧ c5Res.2 = 0 ∧
    countDupSkips c5Res.1.trace ≠ 100 := by
  refine ⟨by decide, by decide, by decide⟩

/-- One Phase-1 iteration whose list request fails while fewer than 3
consecutive failures have accumulated: the window advances, the checkpoint is
written, and the loop goes on. -/
theorem columnFailStep (o : ListOracle) (cid : Nat) (cat : String)
    (er pp f endr dup empt tn : Nat) (s : ColState)
    (hfail : o cid endr = PageResp.failure) (hlt : endr < er) (hempt : empt + 1 < 3) :
    collectColumnLoop o cid cat er pp false 100 (f + 1) endr dup empt tn s =
      collectColumnLoop o cid cat er pp false 100 f (min (endr + pp) er) 0 (empt + 1) tn
        ⟨set_last_pagination_pageOk s.rm cid (min (endr + pp) er),
         s.trace ++ [Ev.pageRequest cid endr (min (endr + pp) er)]⟩ := by
  rw [collectColumnLoop]
  simp [decide_eq_true hlt, hfail, show ¬(3 ≤ empt + 1) from by omega]

/-- The third consecutive failed list request aborts the section: no
checkpoint write for the failed page, loop over. -/
theorem columnFailBreak (o : ListOracle) (cid : Nat) (cat : String)
    (er pp f endr dup empt tn : Nat) (s : ColState)
    (hfail : o cid endr = PageResp.failure) (hlt : endr < er) (hempt : 3 ≤ empt + 1) :
    collectColumnLoop o cid cat er pp false 100 (f + 1) endr dup empt tn s =
      (⟨s.rm, s.trace ++ [Ev.pageRequest cid endr (min (endr + pp) er)]⟩, tn) := by
  rw [collectColumnLoop]
  simp [decide_eq_true hlt, hfail, hempt]

/-- A section whose list endpoint keeps failing issues exactly three page
requests from a fresh checkpoint and then gives up, having produced no links;
the stored checkpoint ends past the two pages whose requests failed first. -/
theorem columnAllFail (o : ListOracle) (cid : Nat) (cat : String) (er pp f : Nat)
    (s : ColState) (hfail : ∀ sr, o cid sr = PageResp.failure) (her : 2 * pp < er) :
    collectColumnLoop o cid cat er pp false 100 (f + 3) 0 0 0 0 s =
      (⟨set_last_pagination_pageOk (set_last_pagination_pageOk s.rm cid pp) cid (2 * pp),
        s.trace ++ [Ev.pageRequest cid 0 pp, Ev.pageRequest cid pp (2 * pp),
          Ev.pageRequest cid (2 * pp) (min (2 * pp + pp) er)]⟩, 0) := by
  have hm1 : min (0 + pp) er = pp := by omega
  have hm2 : min (pp + pp) er = 2 * pp := by omega
  have hstep1 := columnFailStep o cid cat er pp (f + 2) 0 0 0 0 s
    (hfail 0) (by omega) (by omega)
  rw [hm1] at hstep1
  rw [show f + 3 = (f + 2) + 1 from rfl, hstep1]
  have hstep2 := columnFailStep o cid cat er pp (f + 1) pp 0 1 0
    ⟨set_last_pagination_pageOk s.rm cid pp, s.trace ++ [Ev.pageRequest cid 0 pp]⟩
    (hfail pp) (by omega) (by omega)
  rw [hm2] at hstep2
  rw [hstep2]
  have hstep3 := columnFailBreak o cid cat er pp f (2 * pp) 0 2 0
    ⟨set_last_pagination_pageOk (set_last_pagination_pageOk s.rm cid pp) cid (2 * pp),
      (s.trace ++ [Ev.pageRequest cid 0 pp]) ++ [Ev.pageRequest cid pp (2 * pp)]⟩
    (hfail (2 * pp)) (by omega) (by omega)
  rw [hstep3]
  simp

theorem getAssoc_setAssoc_ne (c d v : Nat) (h : c ≠ d) :
    ∀ l : List (Nat × Nat), getAssoc (setAssoc l c v) d = getAssoc l d := by
  intro l
  induction l with
  | nil => simp [setAssoc, getAssoc, h]
  | cons p rest ih =>
    by_cases hk : p.1 = c
    · have hd : p.1 ≠ d := by rw [hk]; exact h
      simp [setAssoc, getAssoc, hk, hd, h]
    · by_cases hd : p.1 = d
      · have hdc : d ≠ c := fun hh => h hh.symm
        simp [setAssoc, getAssoc, hk, hd, hdc]
      · simp [setAssoc, getAssoc, hk, hd, ih]

theorem getlast_set_status (st : RedisState) (a : String) (d : StatusDetails) (c : Nat) :
    get_last_pagination_pageOk (set_statusOk st a d) c = get_last_pagination_pageOk st c := rfl

theorem getlast_mark (st : RedisState) (k : Nat) (b : Bool) (c : Nat) :
    get_last_pagination_pageOk (set_pagination_completeOk st k b) c
      = get_last_pagination_pageOk st c := rfl

theorem getlast_setlast_ne (st : RedisState) (k v c : Nat) (h : k ≠ c) :
    get_last_pagination_pageOk (set_last_pagination_pageOk st k v) c
      = get_last_pagination_pageOk st c :=
  getAssoc_setAssoc_ne k c v h st.paginationPages

theorem done_set_status (st : RedisState) (a : String) (d : StatusDetails) (c : Nat) :
    is_pagination_completeOk (set_statusOk st a d) c = is_pagination_completeOk st c := rfl

theorem done_set_last (st : RedisState) (k v c : Nat) :
    is_pagination_completeOk (set_last_pagination_pageOk st k v) c
      = is_pagination_completeOk st c := rfl

theorem done_mark_self (st : RedisState) (c : Nat) :
    is_pagination_completeOk (set_pagination_completeOk st c true) c = true := by
  by_cases hm : c ∈ st.paginationDone <;>
    simp [set_pagination_completeOk, is_pagination_completeOk, hm]

theorem done_mark_ne (st : RedisState) (c d : Nat) (h : c ≠ d) :
    is_pagination_completeOk (set_pagination_completeOk st c true) d
      = is_pagination_completeOk st d := by
  have hdc : d ≠ c := fun hh => h hh.symm
  by_cases hm : c ∈ st.paginationDone <;>
    simp [set_pagination_completeOk, is_pagination_completeOk, hm, List.contains_cons, hdc]

theorem status_set_last (st : RedisState) (k v : Nat) :
    (set_last_pagination_pageOk st k v).statusField = st.statusField := rfl

theorem status_mark (st : RedisState) (k : Nat) (b : Bool) :
    (set_pagination_completeOk st k b).statusField = st.statusField := rfl

theorem status_set_status (st : RedisState) (a : String) (d : StatusDetails) :
    (set_statusOk st a d).statusField = a := rfl

/-- Claim C8 as amended: (1) a section whose list endpoint fails three times
in a row aborts after exactly those three requests with no links collected —
non-fatal, the phase carries on; but (2) `_collect_links_phase` marks a
section's checkpoint complete unconditionally after its pagination loop
returns, so a section aborted by consecutive failures is still marked
complete (not only on normal end-of-range exhaustion as claimed) — shown on
two consecutively-processed all-failing sections: both abort after 3 requests,
both end marked complete, the engine keeps status `running` and never writes
an error status. -/
theorem C8_failure_abort :
    (∀ (o : ListOracle) (cid : Nat) (cat : String) (er pp f : Nat) (s : ColState),
      (∀ sr, o cid sr = PageResp.failure) → 2 * pp < er →
      countPageRequestsFor cid
          ((collectColumnLoop o cid cat er pp false 100 (f + 3) 0 0 0 0 s).1.trace)
        = countPageRequestsFor cid s.trace + 3 ∧
      (collectColumnLoop o cid cat er pp false 100 (f + 3) 0 0 0 0 s).2 = 0) ∧
    (∀ (o : ListOracle) (c1 c2 : Nat) (cfg1 cfg2 : ColumnCfg) (rm : RedisState) (pp f : Nat),
      c1 ≠ c2 →
      (∀ sr, o c1 sr = PageResp.failure) → (∀ sr, o c2 sr = PageResp.failure) →
      is_pagination_completeOk rm c1 = false → is_pagination_completeOk rm c2 = false →
      get_last_pagination_pageOk rm c1 = 0 → get_last_pagination_pageOk rm c2 = 0 →
      2 * pp < cfg1.endRecords → 2 * pp < cfg2.endRecords →
      countPageRequestsFor c1
          ((collectLinksPhase o pp (f + 3) [(c1, cfg1), (c2, cfg2)] ⟨rm, []⟩).1.trace) = 3 ∧
      countPageRequestsFor c2
          ((collectLinksPhase o pp (f + 3) [(c1, cfg1), (c2, cfg2)] ⟨rm, []⟩).1.trace) = 3 ∧
      is_pagination_completeOk
          ((collectLinksPhase o pp (f + 3) [(c1, cfg1), (c2, cfg2)] ⟨rm, []⟩).1.rm) c1 = true ∧
      is_pagination_completeOk
          ((collectLinksPhase o pp (f + 3) [(c1, cfg1), (c2, cfg2)] ⟨rm, []⟩).1.rm) c2 = true ∧
      ((collectLinksPhase o pp (f + 3) [(c1, cfg1), (c2, cfg2)] ⟨rm, []⟩).1.rm).statusField
        = "running" ∧
      (collectLinksPhase o pp (f + 3) [(c1, cfg1), (c2, cfg2)] ⟨rm, []⟩).2 = 0) := by
  constructor
  · intro o cid cat er pp f s hfail her
    rw [columnAllFail o cid cat er pp f s hfail her]
    simp [countPageRequestsFor, List.countP_append]
  · intro o c1 c2 cfg1 cfg2 rm pp f hne hf1 hf2 hc1 hc2 hl1 hl2 her1 her2
    have hne2 : c2 ≠ c1 := fun h => hne h.symm
    simp only [collectLinksPhase, collectColumnLinks, hc1, Bool.false_eq_true, if_false,
      getlast_set_status, getlast_mark, hl1, columnAllFail _ _ _ _ _ _ _ hf1 her1,
      done_set_status, done_set_last, done_mark_ne _ _ _ hne, hc2,
      getlast_setlast_ne _ _ _ _ hne, hl2, columnAllFail _ _ _ _ _ _ _ hf2 her2]
    refine ⟨?_, ?_, ?_, ?_, ?_, ?_⟩
    · simp [countPageRequestsFor, List.countP_append, hne2]
    · simp [countPageRequestsFor, List.countP_append, hne]
    · rw [done_mark_ne _ _ _ hne2, done_set_last, done_set_last, done_set_status,
        done_mark_self]
    · rw [done_mark_self]
    · rw [status_mark, status_set_last, status_set_last, status_set_status]
    · trivial

/-- Witness for C8: an all-failing list endpoint, two fresh sections. -/
theorem C8_failure_abort_witness :
    ((∀ sr, allFailList 1 sr = PageResp.failure) ∧ 2 * 15 < 100 ∧
      countPageRequestsFor 1
          ((collectColumnLoop allFailList 1 "s1" 100 15 false 100 (10 + 3) 0 0 0 0
            ⟨RedisState.init, []⟩).1.trace)
        = countPageRequestsFor 1 (⟨RedisState.init, ([] : List Ev)⟩ : ColState).trace + 3 ∧
      (collectColumnLoop allFailList 1 "s1" 100 15 false 100 (10 + 3) 0 0 0 0
        ⟨RedisState.init, []⟩).2 = 0) ∧
    ((1 : Nat) ≠ 2 ∧
      countPageRequestsFor 1
          ((collectLinksPhase allFailList 15 (10 + 3) [(1, ⟨"s1", 100⟩), (2, ⟨"s2", 50⟩)]
            ⟨RedisState.init, []⟩).1.trace) = 3 ∧
      countPageRequestsFor 2
          ((collectLinksPhase allFailList 15 (10 + 3) [(1, ⟨"s1", 100⟩), (2, ⟨"s2", 50⟩)]
            ⟨RedisState.init, []⟩).1.trace) = 3 ∧
      is_pagination_completeOk
          ((collectLinksPhase allFailList 15 (10 + 3) [(1, ⟨"s1", 100⟩), (2, ⟨"s2", 50⟩)]
            ⟨RedisState.init, []⟩).1.rm) 1 = true ∧
      is_pagination_completeOk
          ((collectLinksPhase allFailList 15 (10 + 3) [(1, ⟨"s1", 100⟩), (2, ⟨"s2", 50⟩)]
            ⟨RedisState.init, []⟩).1.rm) 2 = true ∧
      ((collectLinksPhase allFailList 15 (10 + 3) [(1, ⟨"s1", 100⟩), (2, ⟨"s2", 50⟩)]
        ⟨RedisState.init, []⟩).1.rm).statusField = "running" ∧
      (collectLinksPhase allFailList 15 (10 + 3) [(1, ⟨"s1", 100⟩), (2, ⟨"s2", 50⟩)]
        ⟨RedisState.init, []⟩).2 = 0) := by
  have h1 := C8_failure_abort.1 allFailList 1 "s1" 100 15 10 ⟨RedisState.init, []⟩
    (fun _ => rfl) (by decide)
  have h2 := C8_failure_abort.2 allFailList 1 2 ⟨"s1", 100⟩ ⟨"s2", 50⟩ RedisState.init 15 10
    (by decide) (fun _ => rfl) (fun _ => rfl) (by decide) (by decide) (by decide) (by decide)
    (by decide) (by decide)
  exact ⟨⟨fun _ => rfl, by decide, h1.1, h1.2⟩, ⟨by decide, h2.1, h2.2.1, h2.2.2.1,
    h2.2.2.2.1, h2.2.2.2.2.1, h2.2.2.2.2.2⟩⟩

/-- Counterexample to claim C8 as stated: section 1 (range 100, seven pages of
15) aborts early after its 3 consecutive request failures, yet the phase marks
its checkpoint complete — completion is not reserved for normal exhaustion. -/
theorem C8_counterexample :
    countPageRequestsFor 1 c8Res.1.trace = 3 ∧
    is_pagination_completeOk c8Res.1.rm 1 = true := by
  refine ⟨by decide, by decide⟩

/-- No mutating store operation ever lowers the status version counter:
`set_status` is the only writer (INCR), and neither `cleanup` nor
`reset_state` lists the `status_version` key among the keys they delete. -/
theorem applyOp_version_mono (op : RMOp) (st : RedisState) :
    st.statusVersion ≤ (applyOp op st).statusVersion := by
  cases op <;>
    simp only [applyOp, set_statusOk, set_pausedOk, update_progressOk,
      increment_details_crawledOk, set_details_crawledOk, increment_error_countOk,
      set_statsOk, update_stats_incrementalOk, increment_file_countOk,
      increment_crawled_countOk, mark_url_visitedOk, mark_url_crawledOk,
      mark_url_empty_contentOk, push_to_queueOk, pop_from_queueOk, log_errorOk,
      push_to_links_queueOk, pop_from_links_queueOk, set_last_pagination_pageOk,
      set_pagination_completeOk, save_checkpointOk, cleanupOk, reset_stateOk,
      is_url_visitedOk] <;>
    (try split) <;> simp

/-- Claim C7: every `set_status` write bumps the per-identity version counter
by exactly one, `get_status` reports exactly the stored counter to readers,
and no sequence of store operations — explicit resets included, since neither
`cleanup` nor `reset_state` deletes the `status_version` key — ever lowers
it. -/
theorem C7_version_monotonic :
    (∀ (st : RedisState) (status : String) (d : StatusDetails),
      (set_statusOk st status d).statusVersion = st.statusVersion + 1) ∧
    (∀ st : RedisState, (get_statusOk st).version = st.statusVersion) ∧
    (∀ (ops : List RMOp) (st : RedisState),
      st.statusVersion ≤ (applyOps ops st).statusVersion) := by
  refine ⟨fun _ _ _ => rfl, fun _ => rfl, fun ops => ?_⟩
  induction ops with
  | nil => intro st; simp [applyOps]
  | cons op ops ih =>
    intro st
    have h1 := applyOp_version_mono op st
    have h2 := ih (applyOp op st)
    simp only [applyOps, List.foldl_cons] at h2 ⊢
    omega

/-- Claim C6 as amended: every public State Store client operation degrades to
a fixed fallback value instead of propagating when there is no client or when
the store raises.  For most operations the fallback is `false`, zero, the
empty collection or `None` as claimed — but `check_and_mark_url` answers
`True` ("new URL"), `has_incomplete_pagination` answers `True` for any
non-empty section configuration, and `get_status` returns a placeholder dict
with status `unknown` (no client) or `error` (store raised). -/
theorem C6_degraded_defaults :
    (∀ a d, (set_status Conn.noClient a d).1 = false) ∧
    (is_paused Conn.noClient).1 = false ∧
    (∀ b, (set_paused Conn.noClient b).1 = false) ∧
    (is_running Conn.noClient).1 = false ∧
    (∀ a b s e, (update_progress Conn.noClient a b s e).1 = false) ∧
    (get_progress Conn.noClient).1 = none ∧
    (∀ n, (increment_details_crawled Conn.noClient n).1 = 0) ∧
    (get_details_crawled Conn.noClient).1 = 0 ∧
    (∀ n, (set_details_crawled Conn.noClient n).1 = false) ∧
    (∀ n, (increment_error_count Conn.noClient n).1 = 0) ∧
    (get_error_count Conn.noClient).1 = 0 ∧
    (get_stats Conn.noClient).1 = none ∧
    (∀ s, (set_stats Conn.noClient s).1 = false) ∧
    (∀ a b fd cd, (update_stats_incremental Conn.noClient a b fd cd).1 = false) ∧
    (∀ n, (increment_file_count Conn.noClient n).1 = 0) ∧
    (∀ n, (increment_crawled_count Conn.noClient n).1 = 0) ∧
    (∀ u, (is_url_visited Conn.noClient u).1 = false) ∧
    (∀ u, (mark_url_visited Conn.noClient u).1 = false) ∧
    (∀ u, (is_duplicate Conn.noClient u).1 = false) ∧
    (get_visited_count Conn.noClient).1 = 0 ∧
    (∀ u, (mark_url_crawled Conn.noClient u).1 = false) ∧
    (∀ u, (mark_url_empty_content Conn.noClient u).1 = false) ∧
    (∀ u, (is_url_crawled Conn.noClient u).1 = false) ∧
    (get_crawled_count Conn.noClient).1 = 0 ∧
    (∀ u p, (push_to_queue Conn.noClient u p).1 = false) ∧
    (pop_from_queue Conn.noClient).1 = none ∧
    (get_queue_size Conn.noClient).1 = 0 ∧
    (∀ a u m, (log_error Conn.noClient a u m).1 = false) ∧
    (∀ n, (get_recent_errors Conn.noClient n).1 = []) ∧
    (∀ r, (push_to_links_queue Conn.noClient r).1 = false) ∧
    (pop_from_links_queue Conn.noClient).1 = none ∧
    (get_links_queue_size Conn.noClient).1 = 0 ∧
    (has_pending_links Conn.noClient).1 = false ∧
    (∀ k v, (set_last_pagination_page Conn.noClient k v).1 = false) ∧
    (∀ k, (get_last_pagination_page Conn.noClient k).1 = 0) ∧
    (∀ k b, (set_pagination_complete Conn.noClient k b).1 = false) ∧
    (∀ k, (is_pagination_complete Conn.noClient k).1 = false) ∧
    (get_all_pagination_progress Conn.noClient).1 = [] ∧
    (∀ p, (save_checkpoint Conn.noClient p).1 = false) ∧
    (load_checkpoint Conn.noClient).1 = none ∧
    (cleanup Conn.noClient).1 = false ∧
    (reset_state Conn.noClient).1 = false ∧
    (∀ a d, (set_status Conn.raising a d).1 = false) ∧
    (is_paused Conn.raising).1 = false ∧
    (∀ b, (set_paused Conn.raising b).1 = false) ∧
    (is_running Conn.raising).1 = false ∧
    (∀ a b s e, (update_progress Conn.raising a b s e).1 = false) ∧
    (get_progress Conn.raising).1 = none ∧
    (∀ n, (increment_details_crawled Conn.raising n).1 = 0) ∧
    (get_details_crawled Conn.raising).1 = 0 ∧
    (∀ n, (set_details_crawled Conn.raising n).1 = false) ∧
    (∀ n, (increment_error_count Conn.raising n).1 = 0) ∧
    (get_error_count Conn.raising).1 = 0 ∧
    (get_stats Conn.raising).1 = none ∧
    (∀ s, (set_stats Conn.raising s).1 = false) ∧
    (∀ a b fd cd, (update_stats_incremental Conn.raising a b fd cd).1 = false) ∧
    (∀ n, (increment_file_count Conn.raising n).1 = 0) ∧
    (∀ n, (increment_crawled_count Conn.raising n).1 = 0) ∧
    (∀ u, (is_url_visited Conn.raising u).1 = false) ∧
    (∀ u, (mark_url_visited Conn.raising u).1 = false) ∧
    (∀ u, (is_duplicate Conn.raising u).1 = false) ∧
    (get_visited_count Conn.raising).1 = 0 ∧
    (∀ u, (mark_url_crawled Conn.raising u).1 = false) ∧
    (∀ u, (mark_url_empty_content Conn.raising u).1 = false) ∧
    (∀ u, (is_url_crawled Conn.raising u).1 = false) ∧
    (get_crawled_count Conn.raising).1 = 0 ∧
    (∀ u p, (push_to_queue Conn.raising u p).1 = false) ∧
    (pop_from_queue Conn.raising).1 = none ∧
    (get_queue_size Conn.raising).1 = 0 ∧
    (∀ a u m, (log_error Conn.raising a u m).1 = false) ∧
    (∀ n, (get_recent_errors Conn.raising n).1 = []) ∧
    (∀ r, (push_to_links_queue Conn.raising r).1 = false) ∧
    (pop_from_links_queue Conn.raising).1 = none ∧
    (get_links_queue_size Conn.raising).1 = 0 ∧
    (has_pending_links Conn.raising).1 = false ∧
    (∀ k v, (set_last_pagination_page Conn.raising k v).1 = false) ∧
    (∀ k, (get_last_pagination_page Conn.raising k).1 = 0) ∧
    (∀ k b, (set_pagination_complete Conn.raising k b).1 = false) ∧
    (∀ k, (is_pagination_complete Conn.raising k).1 = false) ∧
    (get_all_pagination_progress Conn.raising).1 = [] ∧
    (∀ p, (save_checkpoint Conn.raising p).1 = false) ∧
    (load_checkpoint Conn.raising).1 = none ∧
    (cleanup Conn.raising).1 = false ∧
    (reset_state Conn.raising).1 = false ∧
    (get_status Conn.noClient).1 = ⟨"unknown", 0, 0, 0, none, 0⟩ ∧
    (get_status Conn.raising).1 = ⟨"error", 0, 0, 0, none, 0⟩ ∧
    (check_and_mark_url Conn.noClient "u").1 = true ∧ (∀ u, (check_and_mark_url Conn.noClient u).1 = true) ∧
    (∀ u, (check_and_mark_url Conn.raising u).1 = true) ∧
    (has_incomplete_pagination Conn.noClient []).1 = false ∧
    (∀ k ks, (has_incomplete_pagination Conn.noClient (k :: ks)).1 = true) ∧
    (∀ k ks, (has_incomplete_pagination Conn.raising (k :: ks)).1 = true) := by
  repeat' apply And.intro
  all_goals intros
  all_goals rfl

/-- Counterexample to claim C6 as stated: with the backing store unreachable,
`check_and_mark_url` returns `True` — not one of the claimed safe defaults
`false`/zero/empty/`None`. -/
theorem C6_counterexample :
    (check_and_mark_url Conn.noClient "u").1 = true ∧
    (check_and_mark_url Conn.noClient "u").1 ≠ false := by
  refine ⟨rfl, by decide⟩

end SpiderManager
